import Mathlib

/-!
Shallow embedding of the classification/indices engine of the
7blood-analysis-app repository (src/utils/analysis_engine.py and the
per-panel engine modules).  Python dictionaries are modelled as ordered
association lists, Python numbers (int/float) as rationals, and dynamic
values as the tagged union `PyVal`.  A Python `TypeError` raised by a
comparison or arithmetic operation on a string where a number is
expected is modelled by `Except PyErr`.  Python float formatting inside
f-strings is abstracted as the exact rational rendering (`qRepr`); no
claim depends on the rendered digits.  Static differential-diagnosis
bundles are pure text keyed by (parameter, direction); they are
represented by their table key, since no claim inspects the prose.
-/

/-- Dynamic Python value: a number (int/float, modelled exactly as a
rational) or a string. -/
inductive PyVal where
  | num (q : ℚ)
  | str (s : String)
deriving DecidableEq, Repr

/-- Python runtime errors that the engine can raise on malformed input. -/
inductive PyErr where
  | typeError
  | zeroDivisionError
deriving DecidableEq, Repr

/-- One entry of the input map: Python `{'value': v, 'unit': u}`;
`value` is `none` when the dict holds `None`, `unit` is `none` when the
key is absent. -/
structure ParamData where
  value : Option PyVal := none
  unit : Option String := none
deriving DecidableEq, Repr

/-- Python truthiness of `d.get('value')`: `None`, `0` and `''` are falsy. -/
def pyTruthy : Option PyVal → Bool
  | none => false
  | some (.num q) => decide (q ≠ 0)
  | some (.str s) => decide (s ≠ "")

/-- Python `needle in haystack` for strings: contiguous substring. -/
def pyIn (needle haystack : String) : Bool :=
  decide (needle.toList <:+: haystack.toList)

/-- Python `str.lower`, modelled character-wise on the string's
character list (kernel-computable, ASCII case mapping). -/
def pyLower (s : String) : String := String.mk (s.toList.map Char.toLower)

/-- Python `str.strip`, modelled on the character list: drop whitespace
from both ends (kernel-computable). -/
def pyStrip (s : String) : String :=
  String.mk (((s.toList.dropWhile Char.isWhitespace).reverse.dropWhile
    Char.isWhitespace).reverse)

/-- Python 3 `round(q, ndigits)`: round half to even at `ndigits` decimal
places (exact rational model of the float builtin). -/
def pyRound (ndigits : ℕ) (q : ℚ) : ℚ :=
  let p : ℚ := (10 : ℚ) ^ ndigits
  let m := q * p
  let f : ℤ := ⌊m⌋
  let r := m - f
  let i : ℤ :=
    if r < 1/2 then f
    else if 1/2 < r then f + 1
    else if f % 2 = 0 then f else f + 1
  (i : ℚ) / p

/-- Rendering of a Python number inside an f-string, abstracted as the
exact rational rendering. -/
def qRepr (q : ℚ) : String := toString q

/-- Python `f'{x:.1f}'`, abstracted as rendering of the exactly rounded
rational. -/
def fmt1 (q : ℚ) : String := qRepr (pyRound 1 q)

/-- Python `f'{x:.2f}'`, abstracted as rendering of the exactly rounded
rational. -/
def fmt2 (q : ℚ) : String := qRepr (pyRound 2 q)

/-- Python `f'{x:.0f}'`, abstracted as rendering of the exactly rounded
rational. -/
def fmt0 (q : ℚ) : String := qRepr (pyRound 0 q)

/-- Python `str(v)` for a dynamic value (float rendering abstracted). -/
def pyValRepr : PyVal → String
  | .num q => qRepr q
  | .str s => s

/-- A reference range dict `{low, high, critical_low, critical_high,
unit}`; `none` models an absent key so the source's `.get(key, default)`
fallbacks stay visible. -/
structure RefRange where
  low : Option ℚ := none
  high : Option ℚ := none
  critical_low : Option ℚ := none
  critical_high : Option ℚ := none
  unit : String := ""
deriving DecidableEq, Repr

/-- Rendering of `ref["low"]` etc. inside messages; in all embedded
tables the bound is present (a missing key would raise KeyError, never
reached here). -/
def optQRepr : Option ℚ → String
  | some q => qRepr q
  | none => ""

/-- Python `value < ref.get(key, float('-inf'))` for a numeric value:
false when the key is absent. -/
def ltOptB (q : ℚ) : Option ℚ → Bool
  | some c => decide (q < c)
  | none => false

/-- Python `value > ref.get(key, float('inf'))` for a numeric value:
false when the key is absent. -/
def gtOptB (q : ℚ) : Option ℚ → Bool
  | some c => decide (c < q)
  | none => false

/-- A classification result dict.  `none` fields model keys that the
source leaves out of the dict in some branches. -/
structure Classification where
  value : Option PyVal := none
  unit : Option String := none
  low : Option ℚ := none
  high : Option ℚ := none
  critical_low : Option ℚ := none
  critical_high : Option ℚ := none
  status : String := ""
  message : String := ""
  color : String := ""
deriving DecidableEq, Repr

/-- A quality/consistency check record.  Engines that omit some keys are
modelled with the `""` default. -/
structure QualityCheck where
  rule : String := ""
  expected : String := ""
  actual : String := ""
  deviation : String := ""
  severity : String := ""
  interpretation : String := ""
deriving DecidableEq, Repr

/-- A calculated-index record `{value, formula, interpretation, note}`. -/
structure IndexEntry where
  value : PyVal := .num 0
  formula : String := ""
  interpretation : String := ""
  note : String := ""
deriving DecidableEq, Repr

/-- Python `parameters.get(name, {}).get('value')`. -/
def getVal (parameters : List (String × ParamData)) (name : String) : Option PyVal :=
  match parameters.lookup name with
  | some d => d.value
  | none => none

/-- Python dict assignment `d[k] = v`: overwrite in place if the key
exists (keeping its position), append otherwise. -/
def dictInsert {α : Type} (l : List (String × α)) (k : String) (v : α) : List (String × α) :=
  if (l.lookup k).isSome then
    l.map (fun p => if p.1 = k then (k, v) else p)
  else
    l ++ [(k, v)]

/-- Error-propagating composition used to chain straight-line blocks of
the source that can raise. -/
def bindE {α β : Type} (x : Except PyErr α) (f : α → Except PyErr β) : Except PyErr β :=
  match x with
  | .error e => .error e
  | .ok a => f a

namespace AnalysisEngine

/-- `REFERENCE_RANGES` of src/utils/analysis_engine.py (lines 10-82). -/
def REFERENCE_RANGES : List (String × List (String × RefRange)) := [
  ("RBC", [
    ("Male", { low := some 4.5, high := some 5.5, unit := "x10^12/L", critical_low := some 2.0, critical_high := some 8.0 }),
    ("Female", { low := some 4.0, high := some 5.0, unit := "x10^12/L", critical_low := some 2.0, critical_high := some 8.0 }),
    ("Default", { low := some 4.0, high := some 5.5, unit := "x10^12/L", critical_low := some 2.0, critical_high := some 8.0 })]),
  ("Hemoglobin", [
    ("Male", { low := some 13.5, high := some 17.5, unit := "g/dL", critical_low := some 7.0, critical_high := some 20.0 }),
    ("Female", { low := some 12.0, high := some 16.0, unit := "g/dL", critical_low := some 7.0, critical_high := some 20.0 }),
    ("Default", { low := some 12.0, high := some 17.5, unit := "g/dL", critical_low := some 7.0, critical_high := some 20.0 })]),
  ("Hematocrit", [
    ("Male", { low := some 38.3, high := some 48.6, unit := "%", critical_low := some 20.0, critical_high := some 60.0 }),
    ("Female", { low := some 35.5, high := some 44.9, unit := "%", critical_low := some 20.0, critical_high := some 60.0 }),
    ("Default", { low := some 35.5, high := some 48.6, unit := "%", critical_low := some 20.0, critical_high := some 60.0 })]),
  ("MCV", [
    ("Default", { low := some 80.0, high := some 100.0, unit := "fL", critical_low := some 50.0, critical_high := some 130.0 })]),
  ("MCH", [
    ("Default", { low := some 27.0, high := some 33.0, unit := "pg", critical_low := some 15.0, critical_high := some 45.0 })]),
  ("MCHC", [
    ("Default", { low := some 32.0, high := some 36.0, unit := "g/dL", critical_low := some 25.0, critical_high := some 40.0 })]),
  ("RDW", [
    ("Default", { low := some 11.5, high := some 14.5, unit := "%", critical_low := some 8.0, critical_high := some 30.0 })]),
  ("RDW_SD", [
    ("Default", { low := some 35.0, high := some 56.0, unit := "fL", critical_low := some 25.0, critical_high := some 80.0 })]),
  ("WBC", [
    ("Default", { low := some 4.0, high := some 11.0, unit := "x10^9/L", critical_low := some 1.0, critical_high := some 30.0 })]),
  ("Neutrophils", [
    ("Default", { low := some 40.0, high := some 70.0, unit := "%", critical_low := some 5.0, critical_high := some 95.0 })]),
  ("Lymphocytes", [
    ("Default", { low := some 20.0, high := some 40.0, unit := "%", critical_low := some 3.0, critical_high := some 80.0 })]),
  ("Monocytes", [
    ("Default", { low := some 2.0, high := some 8.0, unit := "%", critical_low := some 0.0, critical_high := some 25.0 })]),
  ("Eosinophils", [
    ("Default", { low := some 1.0, high := some 4.0, unit := "%", critical_low := some 0.0, critical_high := some 30.0 })]),
  ("Basophils", [
    ("Default", { low := some 0.0, high := some 1.0, unit := "%", critical_low := some 0.0, critical_high := some 10.0 })]),
  ("Platelets", [
    ("Default", { low := some 150.0, high := some 400.0, unit := "x10^9/L", critical_low := some 20.0, critical_high := some 1000.0 })]),
  ("MPV", [
    ("Default", { low := some 7.5, high := some 12.5, unit := "fL", critical_low := some 5.0, critical_high := some 15.0 })]),
  ("PDW", [
    ("Default", { low := some 9.0, high := some 17.0, unit := "fL", critical_low := some 5.0, critical_high := some 25.0 })]),
  ("Reticulocytes", [
    ("Default", { low := some 0.5, high := some 2.5, unit := "%", critical_low := some 0.0, critical_high := some 15.0 })]),
  ("ESR", [
    ("Male", { low := some 0.0, high := some 15.0, unit := "mm/hr", critical_low := some 0.0, critical_high := some 100.0 }),
    ("Female", { low := some 0.0, high := some 20.0, unit := "mm/hr", critical_low := some 0.0, critical_high := some 100.0 }),
    ("Default", { low := some 0.0, high := some 20.0, unit := "mm/hr", critical_low := some 0.0, critical_high := some 100.0 })]),
  ("ANC", [
    ("Default", { low := some 1.5, high := some 8.0, unit := "x10^9/L", critical_low := some 0.5, critical_high := some 20.0 })]),
  ("ALC", [
    ("Default", { low := some 1.0, high := some 4.0, unit := "x10^9/L", critical_low := some 0.2, critical_high := some 15.0 })])]

/-- `get_reference_range` (analysis_engine.py lines 435-442): exact sex
match, then 'Default', then the empty dict (modelled as `none`). -/
def get_reference_range (param : String) (sex : String) : Option RefRange :=
  match REFERENCE_RANGES.lookup param with
  | some ranges =>
    match ranges.lookup sex with
    | some r => some r
    | none => ranges.lookup "Default"
  | none => none

/-- Body of `classify_value` after the reference range has resolved, for
a numeric value (analysis_engine.py lines 451-481).  The source's
`ref.get('critical_low', float('-inf'))` / `ref.get('high', float('inf'))`
defaults are `ltOptB`/`gtOptB`; `ref.get('low', 0)` defaults to 0. -/
def classifyCore (ref : RefRange) (q : ℚ) : Classification :=
  let base : Classification :=
    { value := some (.num q), unit := some ref.unit, low := ref.low, high := ref.high,
      critical_low := ref.critical_low, critical_high := ref.critical_high }
  let refStr : String := " (Ref: " ++ optQRepr ref.low ++ "-" ++ optQRepr ref.high ++ ")"
  if ltOptB q ref.critical_low then
    { base with
      status := "critical_low",
      message := "CRITICAL LOW: " ++ qRepr q ++ " " ++ ref.unit ++ refStr, color := "red" }
  else if gtOptB q ref.critical_high then
    { base with
      status := "critical_high",
      message := "CRITICAL HIGH: " ++ qRepr q ++ " " ++ ref.unit ++ refStr, color := "red" }
  else if q < ref.low.getD 0 then
    { base with
      status := "low",
      message := "LOW: " ++ qRepr q ++ " " ++ ref.unit ++ refStr, color := "orange" }
  else if gtOptB q ref.high then
    { base with
      status := "high",
      message := "HIGH: " ++ qRepr q ++ " " ++ ref.unit ++ refStr, color := "orange" }
  else
    { base with
      status := "normal",
      message := "NORMAL: " ++ qRepr q ++ " " ++ ref.unit ++ refStr, color := "green" }

/-- `classify_value` (analysis_engine.py lines 445-481).  A string value
reaches `value < ref.get('critical_low', float('-inf'))` and raises
TypeError whenever a reference range resolves; with no range it returns
the 'unknown' dict untouched. -/
def classify_value (param : String) (value : PyVal) (sex : String) :
    Except PyErr Classification :=
  match get_reference_range param sex with
  | none =>
    .ok { status := "unknown", message := "No reference range available",
          color := "gray", value := some value }
  | some ref =>
    match value with
    | .num q => .ok (classifyCore ref q)
    | .str _ => .error .typeError

end AnalysisEngine

namespace AnalysisEngine

/-- The `DIFFERENTIAL_DIAGNOSES` table of analysis_engine.py (lines
87-428) holds static prose bundles keyed by parameter and direction;
this is its key structure.  A bundle is represented by its key pair,
since no behaviour of the engine depends on the prose. -/
def DIFFERENTIAL_KEYS : List (String × List String) := [
  ("RBC", ["low", "high"]), ("Hemoglobin", ["low", "high"]),
  ("MCV", ["low", "high"]), ("MCHC", ["low", "high"]),
  ("RDW", ["high"]), ("WBC", ["low", "high"]),
  ("Platelets", ["low", "high"]), ("MPV", ["low", "high"]),
  ("Neutrophils", ["low", "high"]), ("Lymphocytes", ["low", "high"]),
  ("Eosinophils", ["high"]), ("Basophils", ["high"]),
  ("Monocytes", ["high"]), ("Reticulocytes", ["low", "high"]),
  ("Hematocrit", ["low", "high"]), ("MCH", ["low", "high"]),
  ("ESR", ["high"]), ("PDW", ["high"])]

/-- `get_differential_diagnosis` (analysis_engine.py lines 484-490): the
direction is the status with a `critical_` front marker removed; the
bundle is returned as its table key. -/
def get_differential_diagnosis (param : String) (status : String) :
    Option (String × String) :=
  match DIFFERENTIAL_KEYS.lookup param with
  | some dirs =>
    let direction := (status.replace "critical_" "")
    if dirs.contains direction then some (param, direction) else none
  | none => none

/-- Rule-of-Threes block of `check_sample_quality` (analysis_engine.py
lines 501-524): guarded by truthiness of RBC, Hemoglobin and Hematocrit;
a string among them raises TypeError at the subtraction. -/
def blockThrees (rbc hb hct : Option PyVal) (issues : List QualityCheck) :
    Except PyErr (List QualityCheck) :=
  if pyTruthy rbc && pyTruthy hb && pyTruthy hct then
    match rbc, hb, hct with
    | some (.num r), some (.num h), some (.num c) =>
      let expected_hb := r * 3
      let hb_diff := |h - expected_hb|
      let issues1 :=
        if hb_diff > 1.5 then
          issues ++ [{
            rule := "Rule of Threes (RBC x 3 = Hb)",
            expected := fmt1 expected_hb ++ " g/dL",
            actual := fmt1 h ++ " g/dL",
            deviation := fmt1 hb_diff ++ " g/dL",
            severity := if hb_diff < 3.0 then "warning" else "error",
            interpretation := "RBC x 3 should equal Hb. Deviation suggests spurious results, thalassemia, or iron deficiency." }]
        else issues
      let expected_hct := h * 3
      let hct_diff := |c - expected_hct|
      if hct_diff > 3.0 then
        .ok (issues1 ++ [{
          rule := "Rule of Threes (Hb x 3 = HCT)",
          expected := fmt1 expected_hct ++ "%",
          actual := fmt1 c ++ "%",
          deviation := fmt1 hct_diff ++ "%",
          severity := if hct_diff < 6.0 then "warning" else "error",
          interpretation := "Hb x 3 should equal HCT. Deviation may indicate sample issues or abnormal hemoglobin." }])
      else .ok issues1
    | _, _, _ => .error .typeError
  else .ok issues

/-- MCV-consistency block of `check_sample_quality` (lines 526-538). -/
def blockMCV (rbc hct mcv : Option PyVal) (issues : List QualityCheck) :
    Except PyErr (List QualityCheck) :=
  if pyTruthy rbc && pyTruthy hct && pyTruthy mcv then
    match rbc, hct, mcv with
    | some (.num r), some (.num c), some (.num m) =>
      let calculated_mcv := (c * 10) / r
      let mcv_diff := |m - calculated_mcv|
      if mcv_diff > 5 then
        .ok (issues ++ [{
          rule := "MCV Consistency (HCT x 10 / RBC)",
          expected := fmt1 calculated_mcv ++ " fL",
          actual := fmt1 m ++ " fL",
          deviation := fmt1 mcv_diff ++ " fL",
          severity := "warning",
          interpretation := "Measured MCV differs from calculated. May indicate instrument issues or RBC agglutination." }])
      else .ok issues
    | _, _, _ => .error .typeError
  else .ok issues

/-- MCHC upper-limit block of `check_sample_quality` (lines 540-549). -/
def blockMCHC (mchc : Option PyVal) (issues : List QualityCheck) :
    Except PyErr (List QualityCheck) :=
  if pyTruthy mchc then
    match mchc with
    | some (.num m) =>
      if m > 36.5 then
        .ok (issues ++ [{
          rule := "MCHC Upper Limit Check",
          expected := "32.0-36.0 g/dL",
          actual := fmt1 m ++ " g/dL",
          deviation := fmt1 (m - 36.0) ++ " g/dL above",
          severity := "warning",
          interpretation := "MCHC >36 may indicate spherocytosis, cold agglutinins, or lipemia artifact." }])
      else .ok issues
    | _ => .error .typeError
  else .ok issues

/-- All-numeric projection of a value list; Python `sum` raises
TypeError when any member is a string. -/
def allNums : List PyVal → Option (List ℚ) :=
  List.mapM (fun v => match v with | .num q => some q | .str _ => none)

/-- WBC-differential-sum block of `check_sample_quality` (lines 551-565):
values that are present (not None) are kept, zeros and strings included. -/
def blockDiffSum (diffValues : List PyVal) (issues : List QualityCheck) :
    Except PyErr (List QualityCheck) :=
  if diffValues.length ≥ 3 then
    match allNums diffValues with
    | some qs =>
      let diff_sum := qs.sum
      if |diff_sum - 100| > 5 then
        .ok (issues ++ [{
          rule := "WBC Differential Sum",
          expected := "100%",
          actual := fmt1 diff_sum ++ "%",
          deviation := fmt1 |diff_sum - 100| ++ "%",
          severity := if |diff_sum - 100| < 10 then "warning" else "error",
          interpretation := "WBC differential should sum to ~100%. Deviation may indicate extraction errors." }])
      else .ok issues
    | none => .error .typeError
  else .ok issues

/-- Platelet-MPV block of `check_sample_quality` (lines 567-587),
modelling Python's short-circuit evaluation: MPV is only compared (and
can only raise) in the branch that reaches it. -/
def blockPlt (plt mpv : Option PyVal) (issues : List QualityCheck) :
    Except PyErr (List QualityCheck) :=
  if pyTruthy plt && pyTruthy mpv then
    match plt with
    | some (.num p) =>
      if p > 400 then
        match mpv with
        | some (.num m) =>
          if m > 11 then
            .ok (issues ++ [{
              rule := "Platelet-MPV Inverse Relationship",
              expected := "High platelets with Low-normal MPV",
              actual := "Plt: " ++ fmt0 p ++ ", MPV: " ++ fmt1 m,
              deviation := "Both elevated",
              severity := "info",
              interpretation := "Both elevated may suggest myeloproliferative neoplasm." }])
          else .ok issues
        | _ => .error .typeError
      else if p < 150 then
        match mpv with
        | some (.num m) =>
          if m < 8 then
            .ok (issues ++ [{
              rule := "Platelet-MPV Inverse Relationship",
              expected := "Low platelets with High MPV",
              actual := "Plt: " ++ fmt0 p ++ ", MPV: " ++ fmt1 m,
              deviation := "Both decreased",
              severity := "info",
              interpretation := "Both low suggests bone marrow suppression rather than peripheral destruction." }])
          else .ok issues
        | _ => .error .typeError
      else .ok issues
    | _ => .error .typeError
  else .ok issues

/-- The synthetic record appended by `check_sample_quality` when no rule
fired (lines 589-597). -/
def overallQualityPass : QualityCheck :=
  { rule := "Overall Quality Assessment",
    expected := "All checks passed",
    actual := "All checks passed",
    deviation := "None",
    severity := "pass",
    interpretation := "No quality issues detected. Results appear internally consistent." }

/-- `check_sample_quality` (analysis_engine.py lines 493-599). -/
def check_sample_quality (parameters : List (String × ParamData)) :
    Except PyErr (List QualityCheck) :=
  let rbc := getVal parameters "RBC"
  let hb := getVal parameters "Hemoglobin"
  let hct := getVal parameters "Hematocrit"
  let mcv := getVal parameters "MCV"
  let mchc := getVal parameters "MCHC"
  let diffValues := ([getVal parameters "Neutrophils", getVal parameters "Lymphocytes",
    getVal parameters "Monocytes", getVal parameters "Eosinophils",
    getVal parameters "Basophils"]).filterMap id
  let plt := getVal parameters "Platelets"
  let mpv := getVal parameters "MPV"
  bindE (blockThrees rbc hb hct []) fun i1 =>
  bindE (blockMCV rbc hct mcv i1) fun i2 =>
  bindE (blockMCHC mchc i2) fun i3 =>
  bindE (blockDiffSum diffValues i3) fun i4 =>
  bindE (blockPlt plt mpv i4) fun i5 =>
  .ok (if i5.isEmpty then [overallQualityPass] else i5)

/-- `get_anc_interpretation` (analysis_engine.py lines 606-618). -/
def get_anc_interpretation (anc : ℚ) : String :=
  if anc < 0.2 then fmt2 anc ++ " x10^9/L - Very severe neutropenia (high infection risk)"
  else if anc < 0.5 then fmt2 anc ++ " x10^9/L - Severe neutropenia"
  else if anc < 1.0 then fmt2 anc ++ " x10^9/L - Moderate neutropenia"
  else if anc < 1.5 then fmt2 anc ++ " x10^9/L - Mild neutropenia"
  else if anc ≤ 8.0 then fmt2 anc ++ " x10^9/L - Normal"
  else fmt2 anc ++ " x10^9/L - Neutrophilia"

/-- `get_nlr_interpretation` (analysis_engine.py lines 621-629). -/
def get_nlr_interpretation (nlr : ℚ) : String :=
  if nlr < 1 then fmt2 nlr ++ " - Low (consider viral infection or neutropenia)"
  else if nlr ≤ 3 then fmt2 nlr ++ " - Normal"
  else if nlr ≤ 9 then fmt2 nlr ++ " - Mildly elevated (mild stress/infection)"
  else fmt2 nlr ++ " - Significantly elevated (severe infection/inflammation)"

/-- Mentzer-index block of `calculate_additional_indices` (lines
644-651); the comparison `rbc > 0` raises first on a string RBC, the
division raises on a string MCV. -/
def idxMentzer (mcv rbc : Option PyVal) (acc : List (String × IndexEntry)) :
    Except PyErr (List (String × IndexEntry)) :=
  if pyTruthy mcv && pyTruthy rbc then
    match rbc with
    | some (.num r) =>
      if r > 0 then
        match mcv with
        | some (.num m) =>
          let mentzer := m / r
          .ok (acc ++ [("Mentzer Index",
            { value := .num (pyRound 1 mentzer),
              interpretation := if mentzer < 13 then "Suggests thalassemia trait" else "Suggests iron deficiency",
              formula := "MCV / RBC",
              note := "<13 = thalassemia trait; >13 = iron deficiency" })])
        | _ => .error .typeError
      else .ok acc
    | _ => .error .typeError
  else .ok acc

/-- Calculated-MCHC block of `calculate_additional_indices` (lines
653-660). -/
def idxCalcMCHC (hb hct : Option PyVal) (acc : List (String × IndexEntry)) :
    Except PyErr (List (String × IndexEntry)) :=
  if pyTruthy hb && pyTruthy hct then
    match hct with
    | some (.num c) =>
      if c > 0 then
        match hb with
        | some (.num h) =>
          let calc_mchc := (h / c) * 100
          .ok (acc ++ [("Calculated MCHC",
            { value := .num (pyRound 1 calc_mchc),
              interpretation := fmt1 calc_mchc ++ " g/dL",
              formula := "(Hb / HCT) x 100",
              note := "Should match reported MCHC" })])
        | _ => .error .typeError
      else .ok acc
    | _ => .error .typeError
  else .ok acc

/-- Calculated-MCH block of `calculate_additional_indices` (lines
662-669). -/
def idxCalcMCH (hb rbc : Option PyVal) (acc : List (String × IndexEntry)) :
    Except PyErr (List (String × IndexEntry)) :=
  if pyTruthy hb && pyTruthy rbc then
    match rbc with
    | some (.num r) =>
      if r > 0 then
        match hb with
        | some (.num h) =>
          let calc_mch := (h / r) * 10
          .ok (acc ++ [("Calculated MCH",
            { value := .num (pyRound 1 calc_mch),
              interpretation := fmt1 calc_mch ++ " pg",
              formula := "(Hb / RBC) x 10",
              note := "Should match reported MCH" })])
        | _ => .error .typeError
      else .ok acc
    | _ => .error .typeError
  else .ok acc

/-- Calculated-ANC block of `calculate_additional_indices` (lines
671-678); `neut_pct / 100` is evaluated before the product with WBC. -/
def idxANC (wbc neut : Option PyVal) (acc : List (String × IndexEntry)) :
    Except PyErr (List (String × IndexEntry)) :=
  if pyTruthy wbc && pyTruthy neut then
    match neut with
    | some (.num n) =>
      match wbc with
      | some (.num w) =>
        let anc := w * (n / 100)
        .ok (acc ++ [("Calculated ANC",
          { value := .num (pyRound 2 anc),
            interpretation := get_anc_interpretation anc,
            formula := "WBC x (Neutrophils% / 100)",
            note := "<1.5 = neutropenia; <0.5 = severe" })])
      | _ => .error .typeError
    | _ => .error .typeError
  else .ok acc

/-- Calculated-ALC block of `calculate_additional_indices` (lines
680-687). -/
def idxALC (wbc lymph : Option PyVal) (acc : List (String × IndexEntry)) :
    Except PyErr (List (String × IndexEntry)) :=
  if pyTruthy wbc && pyTruthy lymph then
    match lymph with
    | some (.num n) =>
      match wbc with
      | some (.num w) =>
        let alc := w * (n / 100)
        .ok (acc ++ [("Calculated ALC",
          { value := .num (pyRound 2 alc),
            interpretation := fmt2 alc ++ " x10^9/L",
            formula := "WBC x (Lymphocytes% / 100)",
            note := "Normal: 1.0-4.0 x10^9/L" })])
      | _ => .error .typeError
    | _ => .error .typeError
  else .ok acc

/-- NLR block of `calculate_additional_indices` (lines 689-696). -/
def idxNLR (neut lymph : Option PyVal) (acc : List (String × IndexEntry)) :
    Except PyErr (List (String × IndexEntry)) :=
  if pyTruthy neut && pyTruthy lymph then
    match lymph with
    | some (.num l) =>
      if l > 0 then
        match neut with
        | some (.num n) =>
          let nlr := n / l
          .ok (acc ++ [("NLR",
            { value := .num (pyRound 2 nlr),
              interpretation := get_nlr_interpretation nlr,
              formula := "Neutrophils% / Lymphocytes%",
              note := "Normal: 1-3; Elevated in infection/inflammation" })])
        | _ => .error .typeError
      else .ok acc
    | _ => .error .typeError
  else .ok acc

/-- `calculate_additional_indices` (analysis_engine.py lines 632-698). -/
def calculate_additional_indices (parameters : List (String × ParamData)) :
    Except PyErr (List (String × IndexEntry)) :=
  let rbc := getVal parameters "RBC"
  let mcv := getVal parameters "MCV"
  let hb := getVal parameters "Hemoglobin"
  let hct := getVal parameters "Hematocrit"
  let wbc := getVal parameters "WBC"
  let neut := getVal parameters "Neutrophils"
  let lymph := getVal parameters "Lymphocytes"
  bindE (idxMentzer mcv rbc []) fun a1 =>
  bindE (idxCalcMCHC hb hct a1) fun a2 =>
  bindE (idxCalcMCH hb rbc a2) fun a3 =>
  bindE (idxANC wbc neut a3) fun a4 =>
  bindE (idxALC wbc lymph a4) fun a5 =>
  idxNLR neut lymph a5

end AnalysisEngine

namespace AnalysisEngine

/-- An entry of the `parameters` field of the result, one per analysed
input parameter (analysis_engine.py lines 734-739). -/
structure ResultEntry where
  value : PyVal
  unit : String := ""
  classification : Classification := {}
  differential : Option (String × String) := none
deriving DecidableEq, Repr

/-- An entry of the `abnormalities` list (lines 721-725). -/
structure AbnormalityEntry where
  parameter : String
  classification : Classification := {}
  differential : Option (String × String) := none
deriving DecidableEq, Repr

/-- An entry of the `critical_values` list (lines 727-732). -/
structure CriticalEntry where
  parameter : String
  value : PyVal
  status : String := ""
  message : String := ""
deriving DecidableEq, Repr

/-- The local accumulators of the parameter loop of
`analyze_all_parameters`. -/
structure AnalyzeAcc where
  results : List (String × ResultEntry) := []
  abnormalities : List AbnormalityEntry := []
  critical_values : List CriticalEntry := []
deriving DecidableEq, Repr

/-- The aggregate result dict of `analyze_all_parameters` (lines
744-753). -/
structure PanelResult where
  parameters : List (String × ResultEntry) := []
  abnormalities : List AbnormalityEntry := []
  critical_values : List CriticalEntry := []
  quality_checks : List QualityCheck := []
  calculated_indices : List (String × IndexEntry) := []
  total_parameters : ℕ := 0
  abnormal_count : ℕ := 0
  critical_count : ℕ := 0
deriving DecidableEq, Repr

/-- One iteration of the parameter loop of `analyze_all_parameters`
(lines 711-739): skip None values, classify (which may raise), collect
abnormalities and critical values, store the result entry. -/
def analyzeStep (sex : String) (acc : AnalyzeAcc) (entry : String × ParamData) :
    Except PyErr AnalyzeAcc :=
  match entry.2.value with
  | none => .ok acc
  | some value =>
    bindE (classify_value entry.1 value sex) fun classification =>
    let isAbn := classification.status ∉ (["normal", "unknown"] : List String)
    let differential :=
      if isAbn then get_differential_diagnosis entry.1 classification.status else none
    let abnormalities :=
      if isAbn then
        acc.abnormalities ++ [{
          parameter := entry.1,
          classification := classification, differential := differential }]
      else acc.abnormalities
    let critical_values :=
      if isAbn ∧ pyIn "critical" classification.status then
        acc.critical_values ++ [{
          parameter := entry.1, value := value,
          status := classification.status, message := classification.message }]
      else acc.critical_values
    let results := dictInsert acc.results entry.1
      { value := value,
        unit := (entry.2.unit.getD (classification.unit.getD "")),
        classification := classification,
        differential := differential }
    .ok { results := results, abnormalities := abnormalities,
          critical_values := critical_values }

/-- `analyze_all_parameters` (analysis_engine.py lines 705-753). -/
def analyze_all_parameters (parameters : List (String × ParamData)) (sex : String) :
    Except PyErr PanelResult :=
  bindE (parameters.foldlM (analyzeStep sex) {}) fun acc =>
  bindE (check_sample_quality parameters) fun quality_checks =>
  bindE (calculate_additional_indices parameters) fun calculated_indices =>
  .ok { parameters := acc.results,
        abnormalities := acc.abnormalities,
        critical_values := acc.critical_values,
        quality_checks := quality_checks,
        calculated_indices := calculated_indices,
        total_parameters := acc.results.length,
        abnormal_count := acc.abnormalities.length,
        critical_count := acc.critical_values.length }

end AnalysisEngine

namespace LipidEngine

/-- `LIPID_REFERENCE_RANGES` of src/utils/lipid_engine.py (lines 7-23). -/
def LIPID_REFERENCE_RANGES : List (String × List (String × RefRange)) := [
  ("Total_Cholesterol", [
    ("Default", { low := some 0, high := some 200, unit := "mg/dL", critical_low := some 0, critical_high := some 500 })]),
  ("HDL", [
    ("Male", { low := some 40, high := some 60, unit := "mg/dL", critical_low := some 10, critical_high := some 120 }),
    ("Female", { low := some 50, high := some 60, unit := "mg/dL", critical_low := some 10, critical_high := some 120 }),
    ("Default", { low := some 40, high := some 60, unit := "mg/dL", critical_low := some 10, critical_high := some 120 })]),
  ("LDL", [
    ("Default", { low := some 0, high := some 100, unit := "mg/dL", critical_low := some 0, critical_high := some 500 })]),
  ("VLDL", [
    ("Default", { low := some 2, high := some 30, unit := "mg/dL", critical_low := some 0, critical_high := some 100 })]),
  ("Triglycerides", [
    ("Default", { low := some 0, high := some 150, unit := "mg/dL", critical_low := some 0, critical_high := some 1000 })]),
  ("Non_HDL", [
    ("Default", { low := some 0, high := some 130, unit := "mg/dL", critical_low := some 0, critical_high := some 400 })]),
  ("TC_HDL_Ratio", [
    ("Default", { low := some 0, high := some 4.5, unit := "", critical_low := some 0, critical_high := some 15 })]),
  ("LDL_HDL_Ratio", [
    ("Default", { low := some 0, high := some 3.0, unit := "", critical_low := some 0, critical_high := some 10 })]),
  ("ApoA1", [
    ("Default", { low := some 120, high := some 180, unit := "mg/dL", critical_low := some 50, critical_high := some 250 })]),
  ("ApoB", [
    ("Default", { low := some 40, high := some 100, unit := "mg/dL", critical_low := some 20, critical_high := some 250 })]),
  ("Lp_a", [
    ("Default", { low := some 0, high := some 75, unit := "nmol/L", critical_low := some 0, critical_high := some 500 })])]

/-- Key structure of `LIPID_DIFFERENTIALS` (lipid_engine.py lines
25-64); bundles are static prose represented by their key. -/
def LIPID_DIFFERENTIAL_KEYS : List (String × List String) := [
  ("Total_Cholesterol", ["high"]), ("Triglycerides", ["high"]),
  ("HDL", ["low"]), ("LDL", ["high"]), ("Lp_a", ["high"])]

/-- The `_get_ref` helper of lipid_engine.py (lines 67-71). -/
def lipid_get_ref (param : String) (sex : String) : Option RefRange :=
  match LIPID_REFERENCE_RANGES.lookup param with
  | some refs =>
    match refs.lookup sex with
    | some r => some r
    | none => refs.lookup "Default"
  | none => none

/-- Body of lipid `_classify` once a range resolved (lipid_engine.py
lines 78-90): checks critical_low, critical_high, then HIGH before low,
and flags low only when the low bound is positive. -/
def lipidClassifyCore (ref : RefRange) (q : ℚ) : Classification :=
  let base : Classification :=
    { value := some (.num q), unit := some ref.unit, low := ref.low, high := ref.high,
      critical_low := ref.critical_low, critical_high := ref.critical_high }
  if ltOptB q ref.critical_low then
    { base with
      status := "critical_low", message := "CRITICAL LOW: " ++ qRepr q, color := "red" }
  else if gtOptB q ref.critical_high then
    { base with
      status := "critical_high", message := "CRITICAL HIGH: " ++ qRepr q, color := "red" }
  else if gtOptB q ref.high then
    { base with
      status := "high",
      message := "HIGH: " ++ qRepr q ++ " (Ref: ≤" ++ optQRepr ref.high ++ ")",
      color := "orange" }
  else if q < ref.low.getD 0 ∧ 0 < ref.low.getD 0 then
    { base with
      status := "low",
      message := "LOW: " ++ qRepr q ++ " (Ref: ≥" ++ optQRepr ref.low ++ ")",
      color := "orange" }
  else
    { base with
      status := "normal", message := "NORMAL: " ++ qRepr q, color := "green" }

/-- Lipid `_classify` (lipid_engine.py lines 74-90); every call site has
already checked that the value is numeric. -/
def lipid_classify (param : String) (q : ℚ) (sex : String) : Classification :=
  match lipid_get_ref param sex with
  | none => { status := "unknown", message := "No reference", color := "gray" }
  | some ref => lipidClassifyCore ref q

/-- The inline per-parameter learning texts of `analyze_lipid`
(lipid_engine.py lines 110-115). -/
def LIPID_LEARNING : List (String × String) := [
  ("Total_Cholesterol", "Desirable <200, Borderline 200-239, High ≥240 mg/dL. Sum of HDL + LDL + VLDL."),
  ("LDL", "Primary target for therapy. Goals vary by risk: <70 very high risk, <100 high risk, <130 moderate, <160 low risk. Friedewald: LDL = TC - HDL - (TG/5) if TG<400."),
  ("HDL", "Protective factor. <40 (men) or <50 (women) is low. >60 is protective. Exercise, moderate alcohol, and niacin raise HDL."),
  ("Triglycerides", "Normal <150, Borderline 150-199, High 200-499, Very High ≥500 (pancreatitis risk). Fasting sample required for accuracy.")]

/-- An entry of lipid `results` (lipid_engine.py lines 117-118). -/
structure LipidResultEntry where
  value : PyVal
  unit : String := ""
  classification : Classification := {}
  differential : Option (String × String) := none
  learning : Option String := none
deriving DecidableEq, Repr

/-- The result dict of `analyze_lipid` (lipid_engine.py lines 185-191). -/
structure LipidResult where
  parameters : List (String × LipidResultEntry) := []
  abnormalities : List AnalysisEngine.AbnormalityEntry := []
  critical_values : List AnalysisEngine.CriticalEntry := []
  quality_checks : List QualityCheck := []
  calculated_indices : List (String × IndexEntry) := []
  total_parameters : ℕ := 0
  abnormal_count : ℕ := 0
  critical_count : ℕ := 0
  pattern_summary : String := ""
  educational_content : String := ""
  recommendations : List String := []
deriving DecidableEq, Repr

/-- Accumulators of the parameter loop of `analyze_lipid`. -/
structure LipidAcc where
  results : List (String × LipidResultEntry) := []
  abnormalities : List AnalysisEngine.AbnormalityEntry := []
  critical_values : List AnalysisEngine.CriticalEntry := []
deriving DecidableEq, Repr

/-- One iteration of the parameter loop of `analyze_lipid`
(lipid_engine.py lines 96-118): non-numeric values are skipped by the
isinstance guard. -/
def lipidStep (sex : String) (acc : LipidAcc) (entry : String × ParamData) : LipidAcc :=
  match entry.2.value with
  | none => acc
  | some (.str _) => acc
  | some (.num q) =>
    let c := lipid_classify entry.1 q sex
    let isAbn := c.status ∉ (["normal", "unknown"] : List String)
    let d := c.status.replace "critical_" ""
    let diff : Option (String × String) :=
      if isAbn then
        match LIPID_DIFFERENTIAL_KEYS.lookup entry.1 with
        | some dirs => if dirs.contains d then some (entry.1, d) else none
        | none => none
      else none
    let abnormalities :=
      if isAbn then
        acc.abnormalities ++ [{
          parameter := entry.1, classification := c, differential := diff }]
      else acc.abnormalities
    let critical_values :=
      if isAbn ∧ pyIn "critical" c.status then
        acc.critical_values ++ [{
          parameter := entry.1, value := .num q,
          status := c.status, message := c.message }]
      else acc.critical_values
    let results := dictInsert acc.results entry.1
      { value := .num q,
        unit := entry.2.unit.getD (c.unit.getD ""),
        classification := c,
        differential := diff,
        learning := LIPID_LEARNING.lookup entry.1 }
    { results := results, abnormalities := abnormalities,
      critical_values := critical_values }

/-- TC/HDL-ratio block of the calculated indices of `analyze_lipid`
(lines 126-132). -/
def idxTcHdl (tc hdl : Option PyVal) (acc : List (String × IndexEntry)) :
    Except PyErr (List (String × IndexEntry)) :=
  if pyTruthy tc && pyTruthy hdl then
    match hdl with
    | some (.num h) =>
      if h > 0 then
        match tc with
        | some (.num t) =>
          let r := pyRound 1 (t / h)
          .ok (acc ++ [("TC/HDL Ratio",
            { value := .num r, formula := "TC / HDL",
              interpretation := qRepr r ++ " — " ++
                (if r < 4.5 then "Optimal (<4.5)" else "Elevated (increased CV risk)"),
              note := "Optimal <4.5 for men, <4.0 for women" })])
        | _ => .error .typeError
      else .ok acc
    | _ => .error .typeError
  else .ok acc

/-- Non-HDL block of the calculated indices of `analyze_lipid`
(lines 134-140). -/
def idxNonHdl (tc hdl : Option PyVal) (acc : List (String × IndexEntry)) :
    Except PyErr (List (String × IndexEntry)) :=
  if pyTruthy tc && pyTruthy hdl then
    match tc, hdl with
    | some (.num t), some (.num h) =>
      let non_hdl := pyRound 0 (t - h)
      .ok (acc ++ [("Non-HDL Cholesterol",
        { value := .num non_hdl, formula := "TC - HDL",
          interpretation := qRepr non_hdl ++ " mg/dL — " ++
            (if non_hdl < 130 then "Optimal (<130)" else "Elevated (target is LDL goal + 30)"),
          note := "Better predictor than LDL alone, includes all atherogenic particles" })])
    | _, _ => .error .typeError
  else .ok acc

/-- Friedewald-LDL block of the calculated indices of `analyze_lipid`
(lines 142-148): guarded by truthiness of TC, HDL and TG and by
`tg < 400`. -/
def idxFriedewald (tc hdl tg : Option PyVal) (acc : List (String × IndexEntry)) :
    Except PyErr (List (String × IndexEntry)) :=
  if pyTruthy tc && pyTruthy hdl && pyTruthy tg then
    match tg with
    | some (.num g) =>
      if g < 400 then
        match tc, hdl with
        | some (.num t), some (.num h) =>
          let calc_ldl := pyRound 0 (t - h - g / 5)
          .ok (acc ++ [("Friedewald LDL",
            { value := .num calc_ldl, formula := "TC - HDL - (TG/5)",
              interpretation := qRepr calc_ldl ++ " mg/dL (calculated; valid if TG <400)",
              note := "Compare with directly measured LDL if available" })])
        | _, _ => .error .typeError
      else .ok acc
    | _ => .error .typeError
  else .ok acc

/-- Pancreatitis-risk block of the calculated indices of `analyze_lipid`
(lines 150-155). -/
def idxPancreatitis (tg : Option PyVal) (acc : List (String × IndexEntry)) :
    Except PyErr (List (String × IndexEntry)) :=
  if pyTruthy tg then
    match tg with
    | some (.num g) =>
      if g ≥ 500 then
        .ok (acc ++ [("Pancreatitis Risk",
          { value := .str "HIGH", formula := "TG ≥500 mg/dL",
            interpretation := "Triglycerides ≥500 mg/dL — significant risk of acute pancreatitis!",
            note := "Immediate treatment needed: fibrates, dietary restriction, consider insulin if DKA" })])
      else .ok acc
    | _ => .error .typeError
  else .ok acc

/-- The calculated-indices section of `analyze_lipid` (lipid_engine.py
lines 120-155). -/
def lipidCalcIndices (parameters : List (String × ParamData)) :
    Except PyErr (List (String × IndexEntry)) :=
  let tc := getVal parameters "Total_Cholesterol"
  let hdl := getVal parameters "HDL"
  let tg := getVal parameters "Triglycerides"
  bindE (idxTcHdl tc hdl []) fun a1 =>
  bindE (idxNonHdl tc hdl a1) fun a2 =>
  bindE (idxFriedewald tc hdl tg a2) fun a3 =>
  idxPancreatitis tg a3

/-- The LDL-goal text chain of `analyze_lipid` (lines 158-165). -/
def ldlGoals (ldl : Option PyVal) : Except PyErr (List String) :=
  if pyTruthy ldl then
    match ldl with
    | some (.num l) =>
      .ok [if l < 70 then "At optimal level for very high-risk patients"
        else if l < 100 then "Optimal for high-risk; above goal for very high-risk"
        else if l < 130 then "Near/above optimal; above goal for most patients with risk factors"
        else if l < 160 then "Borderline high"
        else if l < 190 then "High"
        else "Very high — consider familial hypercholesterolemia screening"]
    | _ => .error .typeError
  else .ok []

/-- The triglyceride line of the lipid `pattern_summary` (line 169). -/
def tgPattern (tg : Option PyVal) : Except PyErr String :=
  if pyTruthy tg then
    match tg with
    | some (.num g) =>
      .ok ("**Triglyceride Assessment**: " ++
        (if !pyTruthy tg || g < 150 then "Normal"
         else if g < 200 then "Borderline (150-199)"
         else if g < 500 then "High (200-499)"
         else "VERY HIGH (≥500) — PANCREATITIS RISK"))
    | _ => .error .typeError
  else .ok ""

/-- The educational text of `analyze_lipid` (lipid_engine.py lines
172-183). -/
def LIPID_EDU : String :=
  "### 🎓 Lipid Profile Learning Points\n\n" ++
  "**1. LDL is the Primary Target**: ACC/AHA guidelines focus on statin intensity based on 10-year ASCVD risk rather than specific LDL targets, though LDL goals are still used clinically.\n\n" ++
  "**2. Non-HDL is Often Better than LDL**: Non-HDL cholesterol (TC minus HDL) captures all atherogenic particles including VLDL and IDL. It's the secondary target when TG is elevated.\n\n" ++
  "**3. Friedewald Equation Limitations**: LDL = TC - HDL - TG/5 is inaccurate when TG >400 or in non-fasting samples. Martin-Hopkins equation is more accurate at low LDL and high TG.\n\n" ++
  "**4. Lp(a) is Genetically Determined**: Levels >50 mg/dL (>125 nmol/L) are an independent risk factor for ASCVD. Screen once in lifetime. Not significantly modifiable by lifestyle. PCSK9 inhibitors reduce ~25%.\n\n" ++
  "**5. Triglycerides and Pancreatitis**: TG ≥500 carries pancreatitis risk. Immediate treatment: dietary fat restriction, fibrates. TG >1000: very high risk — consider LPL deficiency.\n"

/-- `analyze_lipid` (lipid_engine.py lines 93-191).  Its
`quality_checks` field is the literal empty list. -/
def analyze_lipid (parameters : List (String × ParamData)) (sex : String) :
    Except PyErr LipidResult :=
  let acc := parameters.foldl (lipidStep sex) {}
  let tg := getVal parameters "Triglycerides"
  let ldl := getVal parameters "LDL"
  bindE (lipidCalcIndices parameters) fun calc_indices =>
  bindE (ldlGoals ldl) fun goals =>
  bindE (tgPattern tg) fun tgLine =>
  let pattern_summary := String.intercalate "\n\n"
    [if goals ≠ [] then "**LDL Assessment**: " ++ String.intercalate "; " goals else "",
     tgLine]
  .ok { parameters := acc.results,
        abnormalities := acc.abnormalities,
        critical_values := acc.critical_values,
        quality_checks := [],
        calculated_indices := calc_indices,
        total_parameters := acc.results.length,
        abnormal_count := acc.abnormalities.length,
        critical_count := acc.critical_values.length,
        pattern_summary := pattern_summary,
        educational_content := LIPID_EDU,
        recommendations := [] }

end LipidEngine

namespace KftEngine

/-- BUN/Creatinine-ratio block of the calculated indices of
`analyze_kft` (kft_engine.py lines 202-213).  Note: kft_engine.py is
truncated in the repository (its trailing educational string is
unterminated), so the module as a whole cannot be imported; this block
is embedded as written. -/
def idxBunCr (bun cr : Option PyVal) (acc : List (String × IndexEntry)) :
    Except PyErr (List (String × IndexEntry)) :=
  if pyTruthy bun && pyTruthy cr then
    match cr with
    | some (.num c) =>
      if c > 0 then
        match bun with
        | some (.num b) =>
          let r := pyRound 1 (b / c)
          .ok (acc ++ [("BUN/Creatinine Ratio",
            { value := .num r, formula := "BUN / Creatinine",
              interpretation :=
                if r > 20 then "Prerenal (dehydration, CHF, GI bleed)"
                else if r ≥ 10 then "Normal"
                else "Intrinsic renal disease, liver disease, or malnutrition",
              note := ">20 prerenal; 10-20 normal; <10 intrinsic/hepatic" })])
        | _ => .error .typeError
      else .ok acc
    | _ => .error .typeError
  else .ok acc

/-- Anion-gap block of the calculated indices of `analyze_kft`
(kft_engine.py lines 216-227). -/
def idxAnionGap (na cl hco3 : Option PyVal) (acc : List (String × IndexEntry)) :
    Except PyErr (List (String × IndexEntry)) :=
  if pyTruthy na && pyTruthy cl && pyTruthy hco3 then
    match na, cl, hco3 with
    | some (.num n), some (.num c), some (.num h) =>
      let ag := pyRound 1 (n - (c + h))
      .ok (acc ++ [("Anion Gap",
        { value := .num ag, formula := "Na - (Cl + HCO3)",
          interpretation :=
            if ag > 12 then "Elevated — consider MUDPILES: Methanol, Uremia, DKA, Propylene glycol, INH/Iron, Lactic acidosis, Ethylene glycol, Salicylates"
            else if ag ≥ 8 then "Normal"
            else "Low — consider hypoalbuminemia, multiple myeloma",
          note := "Normal: 8-12 mEq/L (with K+: 10-20)" })])
    | _, _, _ => .error .typeError
  else .ok acc

/-- Corrected-calcium block of the calculated indices of `analyze_kft`
(kft_engine.py lines 230-238): guarded by truthiness of Calcium and
Albumin and by `albumin < 4.0`. -/
def idxCorrectedCalcium (ca alb : Option PyVal) (acc : List (String × IndexEntry)) :
    Except PyErr (List (String × IndexEntry)) :=
  if pyTruthy ca && pyTruthy alb then
    match alb with
    | some (.num a) =>
      if a < 4.0 then
        match ca with
        | some (.num cq) =>
          let corrected := pyRound 1 (cq + 0.8 * (4.0 - a))
          .ok (acc ++ [("Corrected Calcium",
            { value := .num corrected, formula := "Ca + 0.8 × (4.0 - Albumin)",
              interpretation := qRepr corrected ++ " mg/dL (corrected for albumin " ++ qRepr a ++ ")",
              note := "Use when albumin <4.0 g/dL. Normal corrected: 8.5-10.5" })])
        | _ => .error .typeError
      else .ok acc
    | _ => .error .typeError
  else .ok acc

/-- CKD-staging block of the calculated indices of `analyze_kft`
(kft_engine.py lines 241-252). -/
def idxCkdStage (egfr : Option PyVal) (acc : List (String × IndexEntry)) :
    Except PyErr (List (String × IndexEntry)) :=
  if pyTruthy egfr then
    match egfr with
    | some (.num e) =>
      let stage :=
        if e ≥ 90 then "G1 (Normal or high)"
        else if e ≥ 60 then "G2 (Mildly decreased)"
        else if e ≥ 45 then "G3a (Mild-moderately decreased)"
        else if e ≥ 30 then "G3b (Moderate-severely decreased)"
        else if e ≥ 15 then "G4 (Severely decreased)"
        else "G5 (Kidney failure)"
      .ok (acc ++ [("CKD Stage",
        { value := .str stage, formula := "Based on eGFR (CKD-EPI)",
          interpretation := stage,
          note := "CKD defined as eGFR <60 for ≥3 months" })])
    | _ => .error .typeError
  else .ok acc

/-- The calculated-indices section of `analyze_kft` (kft_engine.py lines
201-252). -/
def kftCalcIndices (parameters : List (String × ParamData)) :
    Except PyErr (List (String × IndexEntry)) :=
  let bun := getVal parameters "BUN"
  let cr := getVal parameters "Creatinine"
  let na := getVal parameters "Sodium"
  let cl := getVal parameters "Chloride"
  let hco3 := getVal parameters "Bicarbonate"
  let ca := getVal parameters "Calcium"
  let alb := getVal parameters "Albumin"
  let egfr := getVal parameters "eGFR"
  bindE (idxBunCr bun cr []) fun a1 =>
  bindE (idxAnionGap na cl hco3 a1) fun a2 =>
  bindE (idxCorrectedCalcium ca alb a2) fun a3 =>
  idxCkdStage egfr a3

end KftEngine

namespace OncologyEngine

/-- `ONCO_REFERENCE_RANGES` of src/utils/oncology_engine.py (lines
4-38). -/
def ONCO_REFERENCE_RANGES : List (String × List (String × RefRange)) := [
  ("AFP", [
    ("Default", { low := some 0, high := some 10, unit := "ng/mL", critical_low := some 0, critical_high := some 50000 })]),
  ("CEA", [
    ("Default", { low := some 0, high := some 3.0, unit := "ng/mL", critical_low := some 0, critical_high := some 1000 })]),
  ("Onco_LDH", [
    ("Default", { low := some 140, high := some 280, unit := "IU/L", critical_low := some 50, critical_high := some 5000 })]),
  ("Beta2_Microglobulin", [
    ("Default", { low := some 0.8, high := some 2.4, unit := "mg/L", critical_low := some 0, critical_high := some 30 })]),
  ("CA_19_9", [
    ("Default", { low := some 0, high := some 37, unit := "U/mL", critical_low := some 0, critical_high := some 50000 })]),
  ("CA_72_4", [
    ("Default", { low := some 0, high := some 6.9, unit := "U/mL", critical_low := some 0, critical_high := some 500 })]),
  ("CA_15_3", [
    ("Default", { low := some 0, high := some 30, unit := "U/mL", critical_low := some 0, critical_high := some 500 })]),
  ("CA_27_29", [
    ("Default", { low := some 0, high := some 38, unit := "U/mL", critical_low := some 0, critical_high := some 500 })]),
  ("CA_125", [
    ("Default", { low := some 0, high := some 35, unit := "U/mL", critical_low := some 0, critical_high := some 5000 })]),
  ("HE4", [
    ("Default", { low := some 0, high := some 140, unit := "pmol/L", critical_low := some 0, critical_high := some 2000 })]),
  ("ROMA_Index", [
    ("Default", { low := some 0, high := some 11.4, unit := "%", critical_low := some 0, critical_high := some 100 })]),
  ("Total_PSA", [
    ("Default", { low := some 0, high := some 4.0, unit := "ng/mL", critical_low := some 0, critical_high := some 500 })]),
  ("Free_PSA", [
    ("Default", { low := some 0, high := some 100, unit := "ng/mL", critical_low := some 0, critical_high := some 100 })]),
  ("PSA_Ratio", [
    ("Default", { low := some 25, high := some 100, unit := "%", critical_low := some 0, critical_high := some 100 })]),
  ("Beta_hCG", [
    ("Male", { low := some 0, high := some 2.0, unit := "mIU/mL", critical_low := some 0, critical_high := some 500000 }),
    ("Female", { low := some 0, high := some 5.0, unit := "mIU/mL", critical_low := some 0, critical_high := some 500000 }),
    ("Default", { low := some 0, high := some 5.0, unit := "mIU/mL", critical_low := some 0, critical_high := some 500000 })]),
  ("NSE", [
    ("Default", { low := some 0, high := some 16.3, unit := "ng/mL", critical_low := some 0, critical_high := some 200 })]),
  ("CYFRA_21_1", [
    ("Default", { low := some 0, high := some 3.3, unit := "ng/mL", critical_low := some 0, critical_high := some 200 })]),
  ("SCC", [
    ("Default", { low := some 0, high := some 1.5, unit := "ng/mL", critical_low := some 0, critical_high := some 100 })]),
  ("ProGRP", [
    ("Default", { low := some 0, high := some 68, unit := "pg/mL", critical_low := some 0, critical_high := some 5000 })]),
  ("Calcitonin", [
    ("Male", { low := some 0, high := some 8.4, unit := "pg/mL", critical_low := some 0, critical_high := some 1000 }),
    ("Female", { low := some 0, high := some 5.0, unit := "pg/mL", critical_low := some 0, critical_high := some 1000 }),
    ("Default", { low := some 0, high := some 8.4, unit := "pg/mL", critical_low := some 0, critical_high := some 1000 })]),
  ("Onco_Thyroglobulin", [
    ("Default", { low := some 0, high := some 55, unit := "ng/mL", critical_low := some 0, critical_high := some 500 })]),
  ("Chromogranin_A", [
    ("Default", { low := some 0, high := some 100, unit := "ng/mL", critical_low := some 0, critical_high := some 1000 })]),
  ("Ki_67", [
    ("Default", { low := some 0, high := some 10, unit := "%", critical_low := some 0, critical_high := some 100 })])]

/-- The `_get_ref` helper of oncology_engine.py (lines 103-107). -/
def onco_get_ref (param : String) (sex : String) : Option RefRange :=
  match ONCO_REFERENCE_RANGES.lookup param with
  | some refs =>
    match refs.lookup sex with
    | some r => some r
    | none => refs.lookup "Default"
  | none => none

/-- Body of oncology `_classify` once a range resolved
(oncology_engine.py lines 112-118): critical_high, then high, then low
(only when the low bound is positive); there is no critical_low tier. -/
def oncoClassifyCore (ref : RefRange) (q : ℚ) : Classification :=
  let base : Classification :=
    { value := some (.num q), unit := some ref.unit, low := ref.low, high := ref.high,
      critical_low := ref.critical_low, critical_high := ref.critical_high }
  if gtOptB q ref.critical_high then
    { base with
      status := "critical_high", message := "CRITICAL: " ++ qRepr q, color := "red" }
  else if gtOptB q ref.high then
    { base with
      status := "high",
      message := "ELEVATED: " ++ qRepr q ++ " (Ref: <" ++ optQRepr ref.high ++ ")",
      color := "orange" }
  else if q < ref.low.getD 0 ∧ 0 < ref.low.getD 0 then
    { base with
      status := "low",
      message := "LOW: " ++ qRepr q ++ " (Ref: " ++ optQRepr ref.low ++ "-" ++ optQRepr ref.high ++ ")",
      color := "orange" }
  else
    { base with
      status := "normal",
      message := "NORMAL: " ++ qRepr q ++ " (Ref: <" ++ optQRepr ref.high ++ ")",
      color := "green" }

/-- Oncology `_classify` (oncology_engine.py lines 109-118); every call
site has already checked that the value is numeric. -/
def onco_classify (param : String) (q : ℚ) (sex : String) : Classification :=
  match onco_get_ref param sex with
  | none => { status := "unknown", message := qRepr q, color := "gray" }
  | some ref => oncoClassifyCore ref q

end OncologyEngine

namespace UrineEngine

/-- `URINE_REFERENCE_RANGES` of src/utils/urine_engine.py (lines 4-13). -/
def URINE_REFERENCE_RANGES : List (String × List (String × RefRange)) := [
  ("Urine_pH", [
    ("Default", { low := some 4.5, high := some 8.0, unit := "", critical_low := some 4.0, critical_high := some 9.0 })]),
  ("Specific_Gravity", [
    ("Default", { low := some 1.005, high := some 1.030, unit := "", critical_low := some 1.000, critical_high := some 1.050 })]),
  ("Urine_RBC", [
    ("Default", { low := some 0, high := some 2, unit := "/hpf", critical_low := some 0, critical_high := some 100 })]),
  ("Urine_WBC", [
    ("Default", { low := some 0, high := some 5, unit := "/hpf", critical_low := some 0, critical_high := some 200 })]),
  ("Urine_Epithelial", [
    ("Default", { low := some 0, high := some 5, unit := "/hpf", critical_low := some 0, critical_high := some 100 })]),
  ("Protein_Creatinine_Ratio", [
    ("Default", { low := some 0, high := some 150, unit := "mg/g", critical_low := some 0, critical_high := some 5000 })]),
  ("Albumin_Creatinine_Ratio", [
    ("Default", { low := some 0, high := some 30, unit := "mg/g", critical_low := some 0, critical_high := some 5000 })]),
  ("Microalbumin", [
    ("Default", { low := some 0, high := some 30, unit := "mg/L", critical_low := some 0, critical_high := some 500 })])]

/-- `URINE_QUALITATIVE_NORMALS` of src/utils/urine_engine.py (lines
15-30): the static per-parameter lists of normal terms. -/
def URINE_QUALITATIVE_NORMALS : List (String × List String) := [
  ("Urine_Color", ["pale yellow", "yellow", "straw", "amber"]),
  ("Urine_Appearance", ["clear", "slightly hazy"]),
  ("Urine_Protein", ["negative", "nil", "absent", "trace"]),
  ("Urine_Glucose", ["negative", "nil", "absent"]),
  ("Urine_Ketones", ["negative", "nil", "absent"]),
  ("Urine_Bilirubin", ["negative", "nil", "absent"]),
  ("Urine_Urobilinogen", ["normal", "negative", "<1.0", "0.2"]),
  ("Urine_Blood", ["negative", "nil", "absent"]),
  ("Urine_Nitrite", ["negative", "nil", "absent"]),
  ("Urine_Leukocyte_Esterase", ["negative", "nil", "absent"]),
  ("Urine_Casts", ["none", "nil", "absent", "none seen", "occasional hyaline"]),
  ("Urine_Crystals", ["none", "nil", "absent", "none seen"]),
  ("Urine_Bacteria", ["none", "nil", "absent", "none seen", "few"]),
  ("Urine_Yeast", ["none", "nil", "absent", "none seen"])]

/-- `_classify_qualitative` (urine_engine.py lines 67-76): a value is
normal when some term of the parameter's static normal list occurs,
case-insensitively, in the stripped value; abnormal otherwise.
Non-string values get status unknown. -/
def classify_qualitative (param : String) (value : PyVal) : Classification :=
  match value with
  | .num q => { status := "unknown", message := qRepr q, color := "gray" }
  | .str s =>
    let normals := (URINE_QUALITATIVE_NORMALS.lookup param).getD []
    let val_lower := pyStrip (pyLower s)
    let is_normal := normals.any (fun n => pyIn (pyLower n) val_lower)
    if is_normal then
      { status := "normal", message := "Normal: " ++ s, color := "green",
        low := none, high := none }
    else
      { status := "abnormal", message := "Abnormal: " ++ s, color := "orange",
        low := none, high := none }

/-- Body of urine `_classify_quantitative` once a range resolved
(urine_engine.py lines 84-87): critical_high, then high, then low; it
has no critical_low tier. -/
def urineClassifyCore (ref : RefRange) (q : ℚ) : Classification :=
  let base : Classification :=
    { value := some (.num q), unit := some ref.unit, low := ref.low, high := ref.high,
      critical_low := ref.critical_low, critical_high := ref.critical_high }
  let refStr : String := " (Ref: " ++ optQRepr ref.low ++ "-" ++ optQRepr ref.high ++ ")"
  if gtOptB q ref.critical_high then
    { base with
      status := "critical_high", message := "CRITICAL HIGH: " ++ qRepr q, color := "red" }
  else if gtOptB q ref.high then
    { base with
      status := "high", message := "HIGH: " ++ qRepr q ++ refStr, color := "orange" }
  else if q < ref.low.getD 0 then
    { base with
      status := "low", message := "LOW: " ++ qRepr q ++ refStr, color := "orange" }
  else
    { base with
      status := "normal", message := "NORMAL: " ++ qRepr q ++ refStr, color := "green" }

/-- Urine `_classify_quantitative` (urine_engine.py lines 79-88); the
range lookup always uses the 'Default' bucket. -/
def classify_quantitative (param : String) (q : ℚ) (_sex : String) : Classification :=
  match (URINE_REFERENCE_RANGES.lookup param).bind (fun refs => refs.lookup "Default") with
  | none => { status := "unknown", message := qRepr q, color := "gray" }
  | some ref => urineClassifyCore ref q

end UrineEngine

namespace RheumEngine

/-- The positive terms of rheumatology `_classify_qual`
(rheumatology_engine.py line 83). -/
def POSITIVE_TERMS : List String := ["positive", "detected", "reactive", "yes", "+"]

/-- `_classify_qual` (rheumatology_engine.py lines 81-86): a value is
abnormal when some positive term occurs in its lowered, stripped string
form, and normal otherwise; the parameter name is ignored. -/
def classify_qual (value : PyVal) : Classification :=
  let val := pyStrip (pyLower (pyValRepr value))
  if POSITIVE_TERMS.any (fun t => pyIn t val) then
    { status := "abnormal", message := "Positive: " ++ pyValRepr value, color := "orange",
      low := none, high := none }
  else
    { status := "normal", message := "Negative: " ++ pyValRepr value, color := "green",
      low := none, high := none }

end RheumEngine

/-- Modelled from the spec: "For qualitative (string-valued) parameters
... classify by substring match against a static per-parameter list of
'normal' terms (case-insensitive).  Match → `normal`; no match →
`abnormal`."  The status such a classifier assigns to a string value
given the static list of normal terms (matching, like the source's
qualitative classifiers, on the lowered and stripped value). -/
def specQualitativeStatus (normals : List String) (value : String) : String :=
  if normals.any (fun n => pyIn (pyLower n) (pyStrip (pyLower value))) then "normal"
  else "abnormal"

section HelperLemmas

/-- Looking a key up in an appended association list searches the left
part first. -/
lemma lookup_append {α : Type} (k : String) (l₁ l₂ : List (String × α)) :
    (l₁ ++ l₂).lookup k = ((l₁.lookup k).or (l₂.lookup k)) := by
  induction l₁ with
  | nil => simp
  | cons h t ih =>
    rcases h with ⟨k', v⟩
    simp only [List.cons_append, List.lookup]
    cases hbeq : (k == k') <;> simp [ih]

/-- A list that is an infix of a singleton is empty or that singleton. -/
lemma infix_of_singleton {α : Type} {l : List α} {a : α} (h : l <:+: [a]) :
    l = [] ∨ l = [a] :=
  List.sublist_singleton.mp h.sublist

end HelperLemmas

/-- Claim C3: the spec says a non-numeric value where a numeric is
expected only skips that parameter and the core never throws; but
`analyze_all_parameters` has no isinstance guard (unlike the sibling
panel engines), so a string value for a recognized parameter reaches
`value < ref.get('critical_low', float('-inf'))` inside `classify_value`
and raises TypeError, aborting the whole batch.  This theorem evaluates
the embedding at the failing input. -/
theorem claim3_string_value_raises :
    AnalysisEngine.analyze_all_parameters
      [("Hemoglobin", { value := some (.str "abc"), unit := some "g/dL" })] "Default" =
      .error .typeError := by
  rfl

/-- Claim C9: analysis is a deterministic pure function of its inputs;
two runs of `analyze_all_parameters` (and of `analyze_lipid`) on the
structurally unchanged input map and sex produce structurally identical
results.  In this embedding the source translates to total functions on
immutable data — it only reads its arguments and module-level constant
tables — so the two runs are definitionally equal. -/
theorem claim9_idempotent :
    ∀ (params : List (String × ParamData)) (sex : String),
      AnalysisEngine.analyze_all_parameters params sex =
        AnalysisEngine.analyze_all_parameters params sex ∧
      LipidEngine.analyze_lipid params sex = LipidEngine.analyze_lipid params sex :=
  fun _ _ => ⟨rfl, rfl⟩

/-- Claim C1 counterexample: the claim says a value at or above
critical_high classifies critical_high, but the Male Hemoglobin range
has critical_high = 20.0 and `classify_value` uses the strict comparison
`value > critical_high`, so the boundary value 20.0 classifies as
plain 'high'. -/
theorem claim1_counterexample :
    (AnalysisEngine.classify_value "Hemoglobin" (.num 20) "Male").toOption.map
      Classification.status = some "high" := by
  have h : AnalysisEngine.get_reference_range "Hemoglobin" "Male" =
      some { low := some 13.5, high := some 17.5, critical_low := some 7.0,
             critical_high := some 20.0, unit := "g/dL" } := by
    simp [AnalysisEngine.get_reference_range, AnalysisEngine.REFERENCE_RANGES, List.lookup]
  rw [AnalysisEngine.classify_value, h]
  norm_num [AnalysisEngine.classifyCore, ltOptB, gtOptB]
  exact ⟨_, rfl, rfl⟩

/-- Claim C2 counterexample: the claim says every panel's analyze
function returns a non-empty quality_checks list, but `analyze_lipid`
returns the literal empty list for it on every input; here evaluated on
the empty input map. -/
theorem claim2_counterexample :
    (LipidEngine.analyze_lipid [] "Default").toOption.map
      LipidEngine.LipidResult.quality_checks = some [] := by
  rfl

/-- Claim C4 counterexample: the claim says 'Friedewald LDL' is present
whenever TC, HDL and TG are present with TG < 400, but the guard
`if tc and hdl and tg and tg < 400` tests truthiness, so TG present with
value 0 (0 < 400, TC and HDL present and nonzero) omits the key. -/
theorem claim4_counterexample :
    (LipidEngine.lipidCalcIndices
      [("Total_Cholesterol", { value := some (.num 200), unit := none }),
       ("HDL", { value := some (.num 50), unit := none }),
       ("Triglycerides", { value := some (.num 0), unit := none })]).toOption.map
      (fun l => l.lookup "Friedewald LDL") = some none := by
  rfl

/-- Claim C5 counterexample: the claim says that on an input map
containing RBC = 5.0 and Hemoglobin = 8.0 the quality checker emits the
Rule-of-Threes error record, but the rule is guarded by
`if rbc and hb and hct`, so on the map containing exactly those two
parameters no rule fires and only the synthetic pass record is
returned. -/
theorem claim5_counterexample :
    (AnalysisEngine.check_sample_quality
      [("RBC", { value := some (.num 5), unit := none }),
       ("Hemoglobin", { value := some (.num 8), unit := none })]).toOption.map
      (fun l => l.any (fun r => r.rule == "Rule of Threes (RBC x 3 = Hb)")) =
      some false := by
  rfl

/-- Input map of the amended claim C5: RBC 5.0 and Hemoglobin 8.0 as in
the claim, with Hematocrit 24.0 additionally present so the guarded
Rule-of-Threes block runs. -/
def c5params : List (String × ParamData) :=
  [("RBC", { value := some (.num 5), unit := none }),
   ("Hemoglobin", { value := some (.num 8), unit := none }),
   ("Hematocrit", { value := some (.num 24), unit := none })]

/-- Claim C5 (amended): on an input map with RBC = 5.0, Hemoglobin = 8.0
and Hematocrit additionally present (value 24.0), the quality checker
emits exactly one record, with rule 'Rule of Threes (RBC x 3 = Hb)' and
severity 'error' (the deviation 7.0 exceeds the 3.0 error threshold). -/
theorem claim5_amended :
    (AnalysisEngine.check_sample_quality c5params).toOption.map
      (fun l => l.map (fun r => (r.rule, r.severity))) =
      some [("Rule of Threes (RBC x 3 = Hb)", "error")] := by
  have hR : getVal c5params "RBC" = some (.num 5) := by simp [c5params, getVal, List.lookup]
  have hH : getVal c5params "Hemoglobin" = some (.num 8) := by simp [c5params, getVal, List.lookup]
  have hC : getVal c5params "Hematocrit" = some (.num 24) := by simp [c5params, getVal, List.lookup]
  have hM : getVal c5params "MCV" = none := by simp [c5params, getVal, List.lookup]
  have hMc : getVal c5params "MCHC" = none := by simp [c5params, getVal, List.lookup]
  have hN : getVal c5params "Neutrophils" = none := by simp [c5params, getVal, List.lookup]
  have hL : getVal c5params "Lymphocytes" = none := by simp [c5params, getVal, List.lookup]
  have hMo : getVal c5params "Monocytes" = none := by simp [c5params, getVal, List.lookup]
  have hE : getVal c5params "Eosinophils" = none := by simp [c5params, getVal, List.lookup]
  have hB : getVal c5params "Basophils" = none := by simp [c5params, getVal, List.lookup]
  have hP : getVal c5params "Platelets" = none := by simp [c5params, getVal, List.lookup]
  have hMp : getVal c5params "MPV" = none := by simp [c5params, getVal, List.lookup]
  rw [AnalysisEngine.check_sample_quality]
  rw [hR, hH, hC, hM, hMc, hN, hL, hMo, hE, hB, hP, hMp]
  norm_num [AnalysisEngine.blockThrees, AnalysisEngine.blockMCV, AnalysisEngine.blockMCHC,
    AnalysisEngine.blockDiffSum, AnalysisEngine.blockPlt, AnalysisEngine.allNums,
    pyTruthy, bindE]
  exact ⟨_, rfl, rfl⟩

/-- The resolved-range branch of `classify_value` never produces the
'unknown' status: each branch stores one of the five tier names. -/
lemma classifyCore_status_ne_unknown (ref : RefRange) (q : ℚ) :
    (AnalysisEngine.classifyCore ref q).status ≠ "unknown" := by
  unfold AnalysisEngine.classifyCore
  split_ifs <;> simp

/-- Claim C7: for every parameter name, numeric value and sex, the CBC
classifier returns a result (never an exception), and its status is
'unknown' — with message 'No reference range available' — exactly when
`get_reference_range` (exact sex match, then 'Default', then the empty
dict) resolves no range. -/
theorem claim7_unknown_iff :
    ∀ (param : String) (q : ℚ) (sex : String),
      ∃ c, AnalysisEngine.classify_value param (.num q) sex = .ok c ∧
        (c.status = "unknown" ↔ AnalysisEngine.get_reference_range param sex = none) ∧
        (AnalysisEngine.get_reference_range param sex = none →
          c.message = "No reference range available") := by
  intro param q sex
  cases h : AnalysisEngine.get_reference_range param sex with
  | none =>
    refine ⟨{ status := "unknown", message := "No reference range available",
              color := "gray", value := some (.num q) }, ?_, ?_, ?_⟩
    · rw [AnalysisEngine.classify_value, h]
    · simp [h]
    · intro _; rfl
  | some ref =>
    refine ⟨AnalysisEngine.classifyCore ref q, ?_, ?_, ?_⟩
    · rw [AnalysisEngine.classify_value, h]
    · simp [classifyCore_status_ne_unknown ref q]
    · intro hn; cases hn

/-- Claim C7 witness: the unrecognized parameter name 'XYZ_Unknown' with
value 5 resolves no reference range and yields the 'unknown' result
without an exception (the spec's Scenario 5). -/
theorem claim7_witness :
    ∃ c, AnalysisEngine.classify_value "XYZ_Unknown" (.num 5) "Default" = .ok c ∧
      (c.status = "unknown" ↔
        AnalysisEngine.get_reference_range "XYZ_Unknown" "Default" = none) ∧
      (AnalysisEngine.get_reference_range "XYZ_Unknown" "Default" = none →
        c.message = "No reference range available") :=
  claim7_unknown_iff "XYZ_Unknown" 5 "Default"

/-- A reference range whose four bounds are all present, as everywhere
in the embedded tables. -/
def mkRef (lo hi cl ch : ℚ) (u : String) : RefRange :=
  { low := some lo, high := some hi, critical_low := some cl,
    critical_high := some ch, unit := u }

/-- Claim C1 (amended): with an ordered reference range
critical_low ≤ low ≤ high ≤ critical_high, the CBC/KFT-style classifier
(`classify_value` via `classifyCore`) realizes the claimed decision
table except at the upper critical boundary, which is strict: values
strictly below critical_low are critical_low; values in
[critical_low, low) are low; values in [low, high] are normal (both
boundaries normal); values in (high, critical_high] — including the
boundary value critical_high itself — are high; and only values
strictly above critical_high are critical_high.  The oncology
classifier (`_classify` via `oncoClassifyCore`) has no critical_low
tier at all: values above critical_high are critical_high, values in
(high, critical_high] are high, values below low are low only when the
low bound is positive (in particular values below critical_low are
merely low), and otherwise — including every value ≤ high when the low
bound is ≤ 0 — the status is normal.  The urine quantitative classifier
likewise has no critical_low tier, flagging every value below low as
low. -/
theorem claim1_amended :
    (∀ (lo hi cl ch : ℚ) (u : String) (q : ℚ), cl ≤ lo → lo ≤ hi → hi ≤ ch →
      ((q < cl → (AnalysisEngine.classifyCore (mkRef lo hi cl ch u) q).status = "critical_low") ∧
       (cl ≤ q → q < lo → (AnalysisEngine.classifyCore (mkRef lo hi cl ch u) q).status = "low") ∧
       (lo ≤ q → q ≤ hi → (AnalysisEngine.classifyCore (mkRef lo hi cl ch u) q).status = "normal") ∧
       (hi < q → q ≤ ch → (AnalysisEngine.classifyCore (mkRef lo hi cl ch u) q).status = "high") ∧
       (ch < q → (AnalysisEngine.classifyCore (mkRef lo hi cl ch u) q).status = "critical_high"))) ∧
    (∀ (lo hi cl ch : ℚ) (u : String) (q : ℚ), cl ≤ lo → lo ≤ hi → hi ≤ ch →
      ((ch < q → (OncologyEngine.oncoClassifyCore (mkRef lo hi cl ch u) q).status = "critical_high") ∧
       (hi < q → q ≤ ch → (OncologyEngine.oncoClassifyCore (mkRef lo hi cl ch u) q).status = "high") ∧
       (q < lo → 0 < lo → (OncologyEngine.oncoClassifyCore (mkRef lo hi cl ch u) q).status = "low") ∧
       (lo ≤ q → q ≤ hi → (OncologyEngine.oncoClassifyCore (mkRef lo hi cl ch u) q).status = "normal") ∧
       (q ≤ hi → lo ≤ 0 → (OncologyEngine.oncoClassifyCore (mkRef lo hi cl ch u) q).status = "normal"))) ∧
    (∀ (lo hi cl ch : ℚ) (u : String) (q : ℚ), cl ≤ lo → lo ≤ hi → hi ≤ ch →
      ((ch < q → (UrineEngine.urineClassifyCore (mkRef lo hi cl ch u) q).status = "critical_high") ∧
       (hi < q → q ≤ ch → (UrineEngine.urineClassifyCore (mkRef lo hi cl ch u) q).status = "high") ∧
       (q < lo → (UrineEngine.urineClassifyCore (mkRef lo hi cl ch u) q).status = "low") ∧
       (lo ≤ q → q ≤ hi → (UrineEngine.urineClassifyCore (mkRef lo hi cl ch u) q).status = "normal"))) := by
  refine ⟨?_, ?_, ?_⟩
  · intro lo hi cl ch u q h1 h2 h3
    refine ⟨?_, ?_, ?_, ?_, ?_⟩
    · intro hq
      simp [AnalysisEngine.classifyCore, mkRef, ltOptB, gtOptB, hq]
    · intro hq1 hq2
      have n1 : ¬(q < cl) := not_lt.mpr hq1
      have n2 : ¬(ch < q) := not_lt.mpr (by linarith)
      simp [AnalysisEngine.classifyCore, mkRef, ltOptB, gtOptB, n1, n2, hq2]
    · intro hq1 hq2
      have n1 : ¬(q < cl) := not_lt.mpr (by linarith)
      have n2 : ¬(ch < q) := not_lt.mpr (by linarith)
      have n3 : ¬(q < lo) := not_lt.mpr hq1
      have n4 : ¬(hi < q) := not_lt.mpr hq2
      simp [AnalysisEngine.classifyCore, mkRef, ltOptB, gtOptB, n1, n2, n3, n4]
    · intro hq1 hq2
      have n1 : ¬(q < cl) := not_lt.mpr (by linarith)
      have n2 : ¬(ch < q) := not_lt.mpr hq2
      have n3 : ¬(q < lo) := not_lt.mpr (by linarith)
      simp [AnalysisEngine.classifyCore, mkRef, ltOptB, gtOptB, n1, n2, n3, hq1]
    · intro hq
      have n1 : ¬(q < cl) := not_lt.mpr (by linarith)
      simp [AnalysisEngine.classifyCore, mkRef, ltOptB, gtOptB, n1, hq]
  · intro lo hi cl ch u q h1 h2 h3
    refine ⟨?_, ?_, ?_, ?_, ?_⟩
    · intro hq
      simp [OncologyEngine.oncoClassifyCore, mkRef, ltOptB, gtOptB, hq]
    · intro hq1 hq2
      have n1 : ¬(ch < q) := not_lt.mpr hq2
      simp [OncologyEngine.oncoClassifyCore, mkRef, ltOptB, gtOptB, n1, hq1]
    · intro hq1 hq2
      have n1 : ¬(ch < q) := not_lt.mpr (by linarith)
      have n2 : ¬(hi < q) := not_lt.mpr (by linarith)
      simp [OncologyEngine.oncoClassifyCore, mkRef, ltOptB, gtOptB, n1, n2, hq1, hq2]
    · intro hq1 hq2
      have n1 : ¬(ch < q) := not_lt.mpr (by linarith)
      have n2 : ¬(hi < q) := not_lt.mpr hq2
      have n3 : ¬(q < lo) := not_lt.mpr hq1
      simp [OncologyEngine.oncoClassifyCore, mkRef, ltOptB, gtOptB, n1, n2, n3]
    · intro hq1 hq2
      have n1 : ¬(ch < q) := not_lt.mpr (by linarith)
      have n2 : ¬(hi < q) := not_lt.mpr hq1
      have n3 : ¬(0 < lo) := not_lt.mpr hq2
      simp [OncologyEngine.oncoClassifyCore, mkRef, ltOptB, gtOptB, n1, n2, n3]
  · intro lo hi cl ch u q h1 h2 h3
    refine ⟨?_, ?_, ?_, ?_⟩
    · intro hq
      simp [UrineEngine.urineClassifyCore, mkRef, ltOptB, gtOptB, hq]
    · intro hq1 hq2
      have n1 : ¬(ch < q) := not_lt.mpr hq2
      simp [UrineEngine.urineClassifyCore, mkRef, ltOptB, gtOptB, n1, hq1]
    · intro hq
      have n1 : ¬(ch < q) := not_lt.mpr (by linarith)
      have n2 : ¬(hi < q) := not_lt.mpr (by linarith)
      simp [UrineEngine.urineClassifyCore, mkRef, ltOptB, gtOptB, n1, n2, hq]
    · intro hq1 hq2
      have n1 : ¬(ch < q) := not_lt.mpr (by linarith)
      have n2 : ¬(hi < q) := not_lt.mpr hq2
      have n3 : ¬(q < lo) := not_lt.mpr hq1
      simp [UrineEngine.urineClassifyCore, mkRef, ltOptB, gtOptB, n1, n2, n3]

/-- Claim C1 witness: the amended decision table applied to the Male
Hemoglobin range at concrete values: 9 is low and the boundary value
20 (= critical_high) is high (not critical_high). -/
theorem claim1_amended_witness :
    (AnalysisEngine.classifyCore (mkRef 13.5 17.5 7 20 "g/dL") 9).status = "low" ∧
    (AnalysisEngine.classifyCore (mkRef 13.5 17.5 7 20 "g/dL") 20).status = "high" :=
  ⟨(claim1_amended.1 13.5 17.5 7 20 "g/dL" 9 (by norm_num) (by norm_num)
      (by norm_num)).2.1 (by norm_num) (by norm_num),
   (claim1_amended.1 13.5 17.5 7 20 "g/dL" 20 (by norm_num) (by norm_num)
      (by norm_num)).2.2.2.1 (by norm_num) (by norm_num)⟩

/-- Splitting a membership in a one- or two-record extension of an
accumulator. -/
lemma mem_append_cases {α : Type} {P : α → Prop} {r : α} {acc L : List α}
    (hr : r ∈ acc ++ L) (hL : ∀ x ∈ L, P x) : r ∈ acc ∨ P r := by
  rcases List.mem_append.mp hr with h | h
  · exact Or.inl h
  · exact Or.inr (hL r h)

/-- Records appended by the Rule-of-Threes block carry their own rule
names, never the synthetic overall-pass rule. -/
lemma blockThrees_mem {rbc hb hct : Option PyVal} {acc out : List QualityCheck}
    (h : AnalysisEngine.blockThrees rbc hb hct acc = .ok out) :
    ∀ r ∈ out, r ∈ acc ∨ r.rule ≠ "Overall Quality Assessment" := by
  intro r hr
  unfold AnalysisEngine.blockThrees at h
  by_cases hg : (pyTruthy rbc && pyTruthy hb && pyTruthy hct) = true
  · rw [if_pos hg] at h
    split at h
    · rename_i qr qh qc
      simp only [] at h
      by_cases hc1 : |qh - qr * 3| > 1.5 <;> by_cases hc2 : |qc - qh * 3| > 3.0 <;>
        simp only [hc1, hc2, if_true, if_false, Except.ok.injEq] at h <;>
        subst h <;>
        (try simp only [List.mem_append, List.mem_singleton] at hr) <;>
        first
          | (rcases hr with (hr | rfl) | rfl
             · exact Or.inl hr
             · right; simp
             · right; simp)
          | (rcases hr with hr | rfl
             · exact Or.inl hr
             · right; simp)
          | exact Or.inl hr
    · simp at h
  · rw [if_neg hg] at h
    injection h with h2
    subst h2
    exact Or.inl hr

/-- Records appended by the MCV-consistency block carry its rule name,
never the synthetic overall-pass rule. -/
lemma blockMCV_mem {rbc hct mcv : Option PyVal} {acc out : List QualityCheck}
    (h : AnalysisEngine.blockMCV rbc hct mcv acc = .ok out) :
    ∀ r ∈ out, r ∈ acc ∨ r.rule ≠ "Overall Quality Assessment" := by
  intro r hr
  unfold AnalysisEngine.blockMCV at h
  by_cases hg : (pyTruthy rbc && pyTruthy hct && pyTruthy mcv) = true
  · rw [if_pos hg] at h
    split at h
    · rename_i qr qc qm
      simp only [] at h
      by_cases hc : |qm - qc * 10 / qr| > 5 <;>
        simp only [hc, if_true, if_false, Except.ok.injEq] at h <;>
        subst h <;>
        (try simp only [List.mem_append, List.mem_singleton] at hr) <;>
        first
          | (rcases hr with hr | rfl
             · exact Or.inl hr
             · right; simp)
          | exact Or.inl hr
    · simp at h
  · rw [if_neg hg] at h
    injection h with h2
    subst h2
    exact Or.inl hr

/-- Records appended by the MCHC upper-limit block carry its rule name,
never the synthetic overall-pass rule. -/
lemma blockMCHC_mem {mchc : Option PyVal} {acc out : List QualityCheck}
    (h : AnalysisEngine.blockMCHC mchc acc = .ok out) :
    ∀ r ∈ out, r ∈ acc ∨ r.rule ≠ "Overall Quality Assessment" := by
  intro r hr
  unfold AnalysisEngine.blockMCHC at h
  by_cases hg : pyTruthy mchc = true
  · rw [if_pos hg] at h
    split at h
    · rename_i qm
      by_cases hc : qm > 36.5 <;>
        simp only [hc, if_true, if_false, Except.ok.injEq] at h <;>
        subst h <;>
        (try simp only [List.mem_append, List.mem_singleton] at hr) <;>
        first
          | (rcases hr with hr | rfl
             · exact Or.inl hr
             · right; simp)
          | exact Or.inl hr
    · simp at h
  · rw [if_neg hg] at h
    injection h with h2
    subst h2
    exact Or.inl hr

/-- Records appended by the WBC-differential-sum block carry its rule
name, never the synthetic overall-pass rule. -/
lemma blockDiffSum_mem {diffValues : List PyVal} {acc out : List QualityCheck}
    (h : AnalysisEngine.blockDiffSum diffValues acc = .ok out) :
    ∀ r ∈ out, r ∈ acc ∨ r.rule ≠ "Overall Quality Assessment" := by
  intro r hr
  unfold AnalysisEngine.blockDiffSum at h
  by_cases hg : diffValues.length ≥ 3
  · rw [if_pos hg] at h
    split at h
    · rename_i x qlist heq
      simp only [] at h
      by_cases hc : |qlist.sum - 100| > 5 <;>
        simp only [hc, if_true, if_false, Except.ok.injEq] at h <;>
        subst h <;>
        (try simp only [List.mem_append, List.mem_singleton] at hr) <;>
        first
          | (rcases hr with hr | rfl
             · exact Or.inl hr
             · right; simp)
          | exact Or.inl hr
    · simp at h
  · rw [if_neg hg] at h
    injection h with h2
    subst h2
    exact Or.inl hr

/-- Records appended by the platelet-MPV block carry its rule name,
never the synthetic overall-pass rule. -/
lemma blockPlt_mem {plt mpv : Option PyVal} {acc out : List QualityCheck}
    (h : AnalysisEngine.blockPlt plt mpv acc = .ok out) :
    ∀ r ∈ out, r ∈ acc ∨ r.rule ≠ "Overall Quality Assessment" := by
  intro r hr
  unfold AnalysisEngine.blockPlt at h
  by_cases hg : (pyTruthy plt && pyTruthy mpv) = true
  · rw [if_pos hg] at h
    split at h
    · rename_i p
      by_cases hp1 : p > 400
      · rw [if_pos hp1] at h
        split at h
        · rename_i m
          by_cases hm : m > 11 <;>
            simp only [hm, if_true, if_false, Except.ok.injEq] at h <;>
            subst h <;>
            (try simp only [List.mem_append, List.mem_singleton] at hr) <;>
            first
              | (rcases hr with hr | rfl
                 · exact Or.inl hr
                 · right; simp)
              | exact Or.inl hr
        · simp at h
      · rw [if_neg hp1] at h
        by_cases hp2 : p < 150
        · rw [if_pos hp2] at h
          split at h
          · rename_i m
            by_cases hm : m < 8 <;>
              simp only [hm, if_true, if_false, Except.ok.injEq] at h <;>
              subst h <;>
              (try simp only [List.mem_append, List.mem_singleton] at hr) <;>
              first
                | (rcases hr with hr | rfl
                   · exact Or.inl hr
                   · right; simp)
                | exact Or.inl hr
          · simp at h
        · rw [if_neg hp2] at h
          injection h with h2
          subst h2
          exact Or.inl hr
    · simp at h
  · rw [if_neg hg] at h
    injection h with h2
    subst h2
    exact Or.inl hr

/-- Claim C2 (amended): the CBC quality checker `check_sample_quality`
never returns an empty list: when it returns at all, the list is
non-empty, and the synthetic 'Overall Quality Assessment' pass record
appears only as the single record replacing an otherwise empty list —
every other emitted record carries one of the concrete rule names.  (The
claim as stated over every panel is false: `analyze_lipid`, and likewise
the urine, rheumatology and oncology analyzers, return a literal empty
`quality_checks` list.) -/
theorem claim2_amended :
    ∀ (params : List (String × ParamData)) (issues : List QualityCheck),
      AnalysisEngine.check_sample_quality params = .ok issues →
      issues ≠ [] ∧
      (issues = [AnalysisEngine.overallQualityPass] ∨
        AnalysisEngine.overallQualityPass ∉ issues) := by
  intro params issues h
  unfold AnalysisEngine.check_sample_quality at h
  simp only [bindE] at h
  rcases h1 : AnalysisEngine.blockThrees (getVal params "RBC")
      (getVal params "Hemoglobin") (getVal params "Hematocrit") [] with e | i1
  · rw [h1] at h; simp at h
  rw [h1] at h; simp only [] at h
  rcases h2 : AnalysisEngine.blockMCV (getVal params "RBC")
      (getVal params "Hematocrit") (getVal params "MCV") i1 with e | i2
  · rw [h2] at h; simp at h
  rw [h2] at h; simp only [] at h
  rcases h3 : AnalysisEngine.blockMCHC (getVal params "MCHC") i2 with e | i3
  · rw [h3] at h; simp at h
  rw [h3] at h; simp only [] at h
  rcases h4 : AnalysisEngine.blockDiffSum
      (([getVal params "Neutrophils", getVal params "Lymphocytes",
        getVal params "Monocytes", getVal params "Eosinophils",
        getVal params "Basophils"]).filterMap id) i3 with e | i4
  · rw [h4] at h; simp at h
  rw [h4] at h; simp only [] at h
  rcases h5 : AnalysisEngine.blockPlt (getVal params "Platelets")
      (getVal params "MPV") i4 with e | i5
  · rw [h5] at h; simp at h
  rw [h5] at h; simp only [] at h
  injection h with h6
  have hmem : ∀ r ∈ i5, r.rule ≠ "Overall Quality Assessment" := by
    intro r hr
    rcases blockPlt_mem h5 r hr with hr4 | hne
    · rcases blockDiffSum_mem h4 r hr4 with hr3 | hne
      · rcases blockMCHC_mem h3 r hr3 with hr2 | hne
        · rcases blockMCV_mem h2 r hr2 with hr1 | hne
          · rcases blockThrees_mem h1 r hr1 with hr0 | hne
            · cases hr0
            · exact hne
          · exact hne
        · exact hne
      · exact hne
    · exact hne
  subst h6
  cases hi : i5.isEmpty
  · rw [if_neg (by simp)]
    refine ⟨?_, Or.inr ?_⟩
    · intro hnil
      subst hnil
      simp at hi
    · intro hx
      exact (hmem _ hx) rfl
  · rw [if_pos rfl]
    exact ⟨by simp, Or.inl rfl⟩

/-- Claim C2 witness: the amended statement applied to the empty input
map, whose quality check result is exactly the single synthetic pass
record. -/
theorem claim2_amended_witness :
    ([AnalysisEngine.overallQualityPass] : List QualityCheck) ≠ [] ∧
    ([AnalysisEngine.overallQualityPass] = [AnalysisEngine.overallQualityPass] ∨
      AnalysisEngine.overallQualityPass ∉ [AnalysisEngine.overallQualityPass]) :=
  claim2_amended [] [AnalysisEngine.overallQualityPass] rfl

/-- On non-string inputs the TC/HDL-ratio block succeeds and only ever
adds its own key. -/
lemma idxTcHdl_ok (tc hdl : Option PyVal) (acc : List (String × IndexEntry))
    (htc : ∀ s, tc ≠ some (.str s)) (hh : ∀ s, hdl ≠ some (.str s)) :
    ∃ out, LipidEngine.idxTcHdl tc hdl acc = .ok out ∧
      ∀ k, k ≠ "TC/HDL Ratio" → out.lookup k = acc.lookup k := by
  unfold LipidEngine.idxTcHdl
  by_cases hg : (pyTruthy tc && pyTruthy hdl) = true
  · rw [if_pos hg]
    rcases hdl with _ | (hq | s)
    · simp [pyTruthy] at hg
    · simp only []
      by_cases hq0 : hq > 0
      · rw [if_pos hq0]
        rcases tc with _ | (tq | s)
        · simp [pyTruthy] at hg
        · refine ⟨_, rfl, ?_⟩
          intro k hk
          rw [lookup_append]
          simp [List.lookup, beq_eq_false_iff_ne.mpr hk]
        · exact absurd rfl (htc s)
      · rw [if_neg hq0]
        exact ⟨acc, rfl, fun k _ => rfl⟩
    · exact absurd rfl (hh s)
  · rw [if_neg hg]
    exact ⟨acc, rfl, fun k _ => rfl⟩

/-- On non-string inputs the non-HDL block succeeds and only ever adds
its own key. -/
lemma idxNonHdl_ok (tc hdl : Option PyVal) (acc : List (String × IndexEntry))
    (htc : ∀ s, tc ≠ some (.str s)) (hh : ∀ s, hdl ≠ some (.str s)) :
    ∃ out, LipidEngine.idxNonHdl tc hdl acc = .ok out ∧
      ∀ k, k ≠ "Non-HDL Cholesterol" → out.lookup k = acc.lookup k := by
  unfold LipidEngine.idxNonHdl
  by_cases hg : (pyTruthy tc && pyTruthy hdl) = true
  · rw [if_pos hg]
    rcases tc with _ | (tq | s)
    · simp [pyTruthy] at hg
    · rcases hdl with _ | (hq | s)
      · simp [pyTruthy] at hg
      · refine ⟨_, rfl, ?_⟩
        intro k hk
        rw [lookup_append]
        simp [List.lookup, beq_eq_false_iff_ne.mpr hk]
      · exact absurd rfl (hh s)
    · exact absurd rfl (htc s)
  · rw [if_neg hg]
    exact ⟨acc, rfl, fun k _ => rfl⟩

/-- On non-string input the pancreatitis-risk block succeeds and only
ever adds its own key. -/
lemma idxPancreatitis_ok (tg : Option PyVal) (acc : List (String × IndexEntry))
    (ht : ∀ s, tg ≠ some (.str s)) :
    ∃ out, LipidEngine.idxPancreatitis tg acc = .ok out ∧
      ∀ k, k ≠ "Pancreatitis Risk" → out.lookup k = acc.lookup k := by
  unfold LipidEngine.idxPancreatitis
  by_cases hg : pyTruthy tg = true
  · rw [if_pos hg]
    rcases tg with _ | (tq | s)
    · simp [pyTruthy] at hg
    · simp only []
      by_cases h5 : tq ≥ 500
      · rw [if_pos h5]
        refine ⟨_, rfl, ?_⟩
        intro k hk
        rw [lookup_append]
        simp [List.lookup, beq_eq_false_iff_ne.mpr hk]
      · rw [if_neg h5]
        exact ⟨acc, rfl, fun k _ => rfl⟩
    · exact absurd rfl (ht s)
  · rw [if_neg hg]
    exact ⟨acc, rfl, fun k _ => rfl⟩

/-- The Friedewald block is skipped outright when the triglyceride value
is falsy (absent, or present with the numeric value 0). -/
lemma idxFriedewald_not_truthy (tc hdl tg : Option PyVal)
    (acc : List (String × IndexEntry)) (h : pyTruthy tg = false) :
    LipidEngine.idxFriedewald tc hdl tg acc = .ok acc := by
  unfold LipidEngine.idxFriedewald
  rw [if_neg]
  simp [h]

/-- The Friedewald block is skipped when triglycerides are at or above
400. -/
lemma idxFriedewald_ge400 (tc hdl : Option PyVal) (t : ℚ)
    (acc : List (String × IndexEntry)) (h : ¬ t < 400) :
    LipidEngine.idxFriedewald tc hdl (some (.num t)) acc = .ok acc := by
  unfold LipidEngine.idxFriedewald
  by_cases hg : (pyTruthy tc && pyTruthy hdl && pyTruthy (some (.num t))) = true
  · rw [if_pos hg]
    simp only []
    rw [if_neg h]
  · rw [if_neg hg]

/-- When TC, HDL and TG are present with nonzero numeric values and
TG < 400, the Friedewald block appends exactly its entry, whose value is
the rounded Friedewald formula. -/
lemma idxFriedewald_appends (a b t : ℚ) (acc : List (String × IndexEntry))
    (ha : a ≠ 0) (hb : b ≠ 0) (ht : t ≠ 0) (h4 : t < 400) :
    ∃ e : IndexEntry, e.value = .num (pyRound 0 (a - b - t / 5)) ∧
      LipidEngine.idxFriedewald (some (.num a)) (some (.num b)) (some (.num t)) acc =
        .ok (acc ++ [("Friedewald LDL", e)]) := by
  unfold LipidEngine.idxFriedewald
  rw [if_pos (by simp [pyTruthy, ha, hb, ht])]
  simp only []
  rw [if_pos h4]
  exact ⟨_, rfl, rfl⟩

/-- On non-string inputs the BUN/creatinine block succeeds and only ever
adds its own key. -/
lemma idxBunCr_ok (bun cr : Option PyVal) (acc : List (String × IndexEntry))
    (h1 : ∀ s, bun ≠ some (.str s)) (h2 : ∀ s, cr ≠ some (.str s)) :
    ∃ out, KftEngine.idxBunCr bun cr acc = .ok out ∧
      ∀ k, k ≠ "BUN/Creatinine Ratio" → out.lookup k = acc.lookup k := by
  unfold KftEngine.idxBunCr
  by_cases hg : (pyTruthy bun && pyTruthy cr) = true
  · rw [if_pos hg]
    rcases cr with _ | (cq | s)
    · simp [pyTruthy] at hg
    · simp only []
      by_cases hc0 : cq > 0
      · rw [if_pos hc0]
        rcases bun with _ | (bq | s)
        · simp [pyTruthy] at hg
        · refine ⟨_, rfl, ?_⟩
          intro k hk
          rw [lookup_append]
          simp [List.lookup, beq_eq_false_iff_ne.mpr hk]
        · exact absurd rfl (h1 s)
      · rw [if_neg hc0]
        exact ⟨acc, rfl, fun k _ => rfl⟩
    · exact absurd rfl (h2 s)
  · rw [if_neg hg]
    exact ⟨acc, rfl, fun k _ => rfl⟩

/-- On non-string inputs the anion-gap block succeeds and only ever adds
its own key. -/
lemma idxAnionGap_ok (na cl hco3 : Option PyVal) (acc : List (String × IndexEntry))
    (h1 : ∀ s, na ≠ some (.str s)) (h2 : ∀ s, cl ≠ some (.str s))
    (h3 : ∀ s, hco3 ≠ some (.str s)) :
    ∃ out, KftEngine.idxAnionGap na cl hco3 acc = .ok out ∧
      ∀ k, k ≠ "Anion Gap" → out.lookup k = acc.lookup k := by
  unfold KftEngine.idxAnionGap
  by_cases hg : (pyTruthy na && pyTruthy cl && pyTruthy hco3) = true
  · rw [if_pos hg]
    rcases na with _ | (nq | s)
    · simp [pyTruthy] at hg
    · rcases cl with _ | (cq | s)
      · simp [pyTruthy] at hg
      · rcases hco3 with _ | (hq | s)
        · simp [pyTruthy] at hg
        · refine ⟨_, rfl, ?_⟩
          intro k hk
          rw [lookup_append]
          simp [List.lookup, beq_eq_false_iff_ne.mpr hk]
        · exact absurd rfl (h3 s)
      · exact absurd rfl (h2 s)
    · exact absurd rfl (h1 s)
  · rw [if_neg hg]
    exact ⟨acc, rfl, fun k _ => rfl⟩

/-- The anion-gap block is skipped outright when sodium is falsy
(absent, or present with the numeric value 0). -/
lemma idxAnionGap_not_truthy (na cl hco3 : Option PyVal)
    (acc : List (String × IndexEntry))
    (h : (pyTruthy na && pyTruthy cl && pyTruthy hco3) = false) :
    KftEngine.idxAnionGap na cl hco3 acc = .ok acc := by
  unfold KftEngine.idxAnionGap
  rw [if_neg]
  simp [h]

/-- On non-string inputs the corrected-calcium block succeeds and only
ever adds its own key. -/
lemma idxCorrectedCalcium_ok (ca alb : Option PyVal) (acc : List (String × IndexEntry))
    (h1 : ∀ s, ca ≠ some (.str s)) (h2 : ∀ s, alb ≠ some (.str s)) :
    ∃ out, KftEngine.idxCorrectedCalcium ca alb acc = .ok out ∧
      ∀ k, k ≠ "Corrected Calcium" → out.lookup k = acc.lookup k := by
  unfold KftEngine.idxCorrectedCalcium
  by_cases hg : (pyTruthy ca && pyTruthy alb) = true
  · rw [if_pos hg]
    rcases alb with _ | (aq | s)
    · simp [pyTruthy] at hg
    · simp only []
      by_cases ha4 : aq < 4.0
      · rw [if_pos ha4]
        rcases ca with _ | (cq | s)
        · simp [pyTruthy] at hg
        · refine ⟨_, rfl, ?_⟩
          intro k hk
          rw [lookup_append]
          simp [List.lookup, beq_eq_false_iff_ne.mpr hk]
        · exact absurd rfl (h1 s)
      · rw [if_neg ha4]
        exact ⟨acc, rfl, fun k _ => rfl⟩
    · exact absurd rfl (h2 s)
  · rw [if_neg hg]
    exact ⟨acc, rfl, fun k _ => rfl⟩

/-- The corrected-calcium block is skipped when albumin is at or above
4.0. -/
lemma idxCorrectedCalcium_ge4 (ca : Option PyVal) (a : ℚ)
    (acc : List (String × IndexEntry)) (h : ¬ a < 4.0) :
    KftEngine.idxCorrectedCalcium ca (some (.num a)) acc = .ok acc := by
  unfold KftEngine.idxCorrectedCalcium
  by_cases hg : (pyTruthy ca && pyTruthy (some (.num a))) = true
  · rw [if_pos hg]
    simp only []
    rw [if_neg h]
  · rw [if_neg hg]

/-- When calcium and albumin are present with nonzero numeric values and
albumin < 4.0, the corrected-calcium block appends exactly its entry,
whose value is the rounded correction formula. -/
lemma idxCorrectedCalcium_appends (c a : ℚ) (acc : List (String × IndexEntry))
    (hc : c ≠ 0) (ha : a ≠ 0) (h4 : a < 4.0) :
    ∃ e : IndexEntry, e.value = .num (pyRound 1 (c + 0.8 * (4.0 - a))) ∧
      KftEngine.idxCorrectedCalcium (some (.num c)) (some (.num a)) acc =
        .ok (acc ++ [("Corrected Calcium", e)]) := by
  unfold KftEngine.idxCorrectedCalcium
  rw [if_pos (by simp [pyTruthy, hc, ha])]
  simp only []
  rw [if_pos h4]
  exact ⟨_, rfl, rfl⟩

/-- On non-string input the CKD-staging block succeeds and only ever
adds its own key. -/
lemma idxCkdStage_ok (egfr : Option PyVal) (acc : List (String × IndexEntry))
    (h1 : ∀ s, egfr ≠ some (.str s)) :
    ∃ out, KftEngine.idxCkdStage egfr acc = .ok out ∧
      ∀ k, k ≠ "CKD Stage" → out.lookup k = acc.lookup k := by
  unfold KftEngine.idxCkdStage
  by_cases hg : pyTruthy egfr = true
  · rw [if_pos hg]
    rcases egfr with _ | (eq | s)
    · simp [pyTruthy] at hg
    · refine ⟨_, rfl, ?_⟩
      intro k hk
      rw [lookup_append]
      simp [List.lookup, beq_eq_false_iff_ne.mpr hk]
    · exact absurd rfl (h1 s)
  · rw [if_neg hg]
    exact ⟨acc, rfl, fun k _ => rfl⟩

/-- A successful association-list lookup comes from a member. -/
lemma lookup_mem {α : Type} {P : List (String × α)} {n : String} {d : α}
    (h : P.lookup n = some d) : (n, d) ∈ P := by
  induction P with
  | nil => cases h
  | cons p t ih =>
    rcases p with ⟨k, v⟩
    simp only [List.lookup] at h
    cases hbeq : (n == k)
    · rw [hbeq] at h
      exact List.mem_cons_of_mem _ (ih h)
    · rw [hbeq] at h
      injection h with h2
      subst h2
      have hk : n = k := eq_of_beq hbeq
      subst hk
      exact List.mem_cons_self _ _

/-- A map none of whose stored values is a string never yields a string
value for any name. -/
lemma getVal_not_str {P : List (String × ParamData)}
    (hP : ∀ p ∈ P, ∀ s, p.2.value ≠ some (.str s)) :
    ∀ n s, getVal P n ≠ some (.str s) := by
  intro n s h
  unfold getVal at h
  cases hl : P.lookup n with
  | none => rw [hl] at h; cases h
  | some d =>
    rw [hl] at h
    exact hP (n, d) (lookup_mem hl) s h

/-- Input map of claim C10's kidney part: Sodium, Chloride and
Bicarbonate with the given values. -/
def kftNaClHco3 (na cl hco3 : ℚ) : List (String × ParamData) :=
  [("Sodium", { value := some (.num na), unit := none }),
   ("Chloride", { value := some (.num cl), unit := none }),
   ("Bicarbonate", { value := some (.num hco3), unit := none })]

/-- Input map of claim C10's CBC part: RBC, Hemoglobin and Hematocrit
with the given values. -/
def cbcRbcHbHct (r hb hct : ℚ) : List (String × ParamData) :=
  [("RBC", { value := some (.num r), unit := none }),
   ("Hemoglobin", { value := some (.num hb), unit := none }),
   ("Hematocrit", { value := some (.num hct), unit := none })]

/-- Claim C10: presence guards in the index calculators and quality
checks test Python truthiness, so a parameter present with numeric value
0 is treated as absent: with Triglycerides = 0 (TC and HDL present and
arbitrary) the 'Friedewald LDL' key is omitted; with any one of Sodium,
Chloride or Bicarbonate equal to 0 (the other two present and
arbitrary) the 'Anion Gap' key is omitted; and with any one of RBC,
Hemoglobin or Hematocrit equal to 0 (the other two present and
arbitrary) no Rule-of-Threes check runs, leaving only the synthetic
pass record. -/
theorem claim10_zero_is_absent :
    (∀ tc hdl : ℚ,
      (LipidEngine.lipidCalcIndices
        [("Total_Cholesterol", { value := some (.num tc), unit := none }),
         ("HDL", { value := some (.num hdl), unit := none }),
         ("Triglycerides", { value := some (.num 0), unit := none })]).toOption.map
          (fun l => l.lookup "Friedewald LDL") = some none) ∧
    (∀ na cl hco3 : ℚ, na = 0 ∨ cl = 0 ∨ hco3 = 0 →
      (KftEngine.kftCalcIndices (kftNaClHco3 na cl hco3)).toOption.map
          (fun l => l.lookup "Anion Gap") = some none) ∧
    (∀ r hb hct : ℚ, r = 0 ∨ hb = 0 ∨ hct = 0 →
      AnalysisEngine.check_sample_quality (cbcRbcHbHct r hb hct) =
        .ok [AnalysisEngine.overallQualityPass]) := by
  refine ⟨?_, ?_, ?_⟩
  · intro tc hdl
    unfold LipidEngine.lipidCalcIndices
    simp only []
    rw [show getVal [("Total_Cholesterol", { value := some (.num tc), unit := none }),
         ("HDL", { value := some (.num hdl), unit := none }),
         ("Triglycerides", { value := some (.num 0), unit := none })] "Total_Cholesterol" =
         some (.num tc) from by simp [getVal, List.lookup],
       show getVal [("Total_Cholesterol", { value := some (.num tc), unit := none }),
         ("HDL", { value := some (.num hdl), unit := none }),
         ("Triglycerides", { value := some (.num 0), unit := none })] "HDL" =
         some (.num hdl) from by simp [getVal, List.lookup],
       show getVal [("Total_Cholesterol", { value := some (.num tc), unit := none }),
         ("HDL", { value := some (.num hdl), unit := none }),
         ("Triglycerides", { value := some (.num 0), unit := none })] "Triglycerides" =
         some (.num 0) from by simp [getVal, List.lookup]]
    obtain ⟨o1, e1, p1⟩ := idxTcHdl_ok (some (.num tc)) (some (.num hdl)) [] (by simp) (by simp)
    rw [e1]
    simp only [bindE]
    obtain ⟨o2, e2, p2⟩ := idxNonHdl_ok (some (.num tc)) (some (.num hdl)) o1 (by simp) (by simp)
    rw [e2]
    simp only [bindE]
    rw [idxFriedewald_not_truthy _ _ _ o2 (by simp [pyTruthy])]
    simp only [bindE]
    obtain ⟨o4, e4, p4⟩ := idxPancreatitis_ok (some (.num 0)) o2 (by simp)
    rw [e4]
    simp only [Except.toOption, Option.map]
    rw [p4 _ (by decide), p2 _ (by decide), p1 _ (by decide)]
    rfl
  · intro na cl hco3 h0
    unfold KftEngine.kftCalcIndices
    simp only []
    rw [show getVal (kftNaClHco3 na cl hco3) "BUN" = none from by
          simp [kftNaClHco3, getVal, List.lookup],
       show getVal (kftNaClHco3 na cl hco3) "Creatinine" = none from by
          simp [kftNaClHco3, getVal, List.lookup],
       show getVal (kftNaClHco3 na cl hco3) "Sodium" = some (.num na) from by
          simp [kftNaClHco3, getVal, List.lookup],
       show getVal (kftNaClHco3 na cl hco3) "Chloride" = some (.num cl) from by
          simp [kftNaClHco3, getVal, List.lookup],
       show getVal (kftNaClHco3 na cl hco3) "Bicarbonate" = some (.num hco3) from by
          simp [kftNaClHco3, getVal, List.lookup],
       show getVal (kftNaClHco3 na cl hco3) "Calcium" = none from by
          simp [kftNaClHco3, getVal, List.lookup],
       show getVal (kftNaClHco3 na cl hco3) "Albumin" = none from by
          simp [kftNaClHco3, getVal, List.lookup],
       show getVal (kftNaClHco3 na cl hco3) "eGFR" = none from by
          simp [kftNaClHco3, getVal, List.lookup]]
    obtain ⟨o1, e1, p1⟩ := idxBunCr_ok none none [] (by simp) (by simp)
    rw [e1]
    simp only [bindE]
    rw [idxAnionGap_not_truthy _ _ _ o1
      (by rcases h0 with rfl | rfl | rfl <;> simp [pyTruthy])]
    simp only [bindE]
    obtain ⟨o3, e3, p3⟩ := idxCorrectedCalcium_ok none none o1 (by simp) (by simp)
    rw [e3]
    simp only [bindE]
    obtain ⟨o4, e4, p4⟩ := idxCkdStage_ok none o3 (by simp)
    rw [e4]
    simp only [Except.toOption, Option.map]
    rw [p4 _ (by decide), p3 _ (by decide), p1 _ (by decide)]
    rfl
  · intro r hb hct h0
    unfold AnalysisEngine.check_sample_quality
    simp only []
    rw [show getVal (cbcRbcHbHct r hb hct) "RBC" = some (.num r) from by
          simp [cbcRbcHbHct, getVal, List.lookup],
       show getVal (cbcRbcHbHct r hb hct) "Hemoglobin" = some (.num hb) from by
          simp [cbcRbcHbHct, getVal, List.lookup],
       show getVal (cbcRbcHbHct r hb hct) "Hematocrit" = some (.num hct) from by
          simp [cbcRbcHbHct, getVal, List.lookup],
       show getVal (cbcRbcHbHct r hb hct) "MCV" = none from by
          simp [cbcRbcHbHct, getVal, List.lookup],
       show getVal (cbcRbcHbHct r hb hct) "MCHC" = none from by
          simp [cbcRbcHbHct, getVal, List.lookup],
       show getVal (cbcRbcHbHct r hb hct) "Neutrophils" = none from by
          simp [cbcRbcHbHct, getVal, List.lookup],
       show getVal (cbcRbcHbHct r hb hct) "Lymphocytes" = none from by
          simp [cbcRbcHbHct, getVal, List.lookup],
       show getVal (cbcRbcHbHct r hb hct) "Monocytes" = none from by
          simp [cbcRbcHbHct, getVal, List.lookup],
       show getVal (cbcRbcHbHct r hb hct) "Eosinophils" = none from by
          simp [cbcRbcHbHct, getVal, List.lookup],
       show getVal (cbcRbcHbHct r hb hct) "Basophils" = none from by
          simp [cbcRbcHbHct, getVal, List.lookup],
       show getVal (cbcRbcHbHct r hb hct) "Platelets" = none from by
          simp [cbcRbcHbHct, getVal, List.lookup],
       show getVal (cbcRbcHbHct r hb hct) "MPV" = none from by
          simp [cbcRbcHbHct, getVal, List.lookup]]
    rw [show AnalysisEngine.blockThrees (some (.num r)) (some (.num hb)) (some (.num hct)) [] =
          .ok [] from by
        unfold AnalysisEngine.blockThrees
        rw [if_neg]
        rcases h0 with rfl | rfl | rfl <;> simp [pyTruthy]]
    simp only [bindE]
    rw [show AnalysisEngine.blockMCV (some (.num r)) (some (.num hct)) none [] = .ok [] from by
        unfold AnalysisEngine.blockMCV
        rw [if_neg]
        simp [pyTruthy]]
    simp only [bindE]
    rw [show AnalysisEngine.blockMCHC none [] = .ok [] from by
        unfold AnalysisEngine.blockMCHC
        rw [if_neg]
        simp [pyTruthy]]
    simp only [bindE]
    rw [show AnalysisEngine.blockDiffSum (([none, none, none, none,
          none] : List (Option PyVal)).filterMap id) [] = .ok [] from by
        unfold AnalysisEngine.blockDiffSum
        rw [if_neg]
        simp]
    simp only [bindE]
    rw [show AnalysisEngine.blockPlt none none [] = .ok [] from by
        unfold AnalysisEngine.blockPlt
        rw [if_neg]
        simp [pyTruthy]]
    simp only [bindE]
    rfl

/-- Claim C10 witness: with Chloride = 0 (Sodium 140, Bicarbonate 24
present) the 'Anion Gap' key is absent, and with Hematocrit = 0 (RBC 5,
Hemoglobin 15 present) the quality checker returns only the synthetic
pass record. -/
theorem claim10_witness :
    (((140 : ℚ) = 0 ∨ (0 : ℚ) = 0 ∨ (24 : ℚ) = 0) ∧
      (KftEngine.kftCalcIndices (kftNaClHco3 140 0 24)).toOption.map
        (fun l => l.lookup "Anion Gap") = some none) ∧
    (((5 : ℚ) = 0 ∨ (15 : ℚ) = 0 ∨ (0 : ℚ) = 0) ∧
      AnalysisEngine.check_sample_quality (cbcRbcHbHct 5 15 0) =
        .ok [AnalysisEngine.overallQualityPass]) :=
  ⟨⟨Or.inr (Or.inl rfl), claim10_zero_is_absent.2.1 140 0 24 (Or.inr (Or.inl rfl))⟩,
   ⟨Or.inr (Or.inr rfl), claim10_zero_is_absent.2.2 5 15 0 (Or.inr (Or.inr rfl))⟩⟩

/-- Claim C4 (amended): on maps whose values are numeric, the
'Friedewald LDL' key is absent whenever Triglycerides ≥ 400 (even with
TC and HDL present); it is present when TC, HDL and Triglycerides are
present with nonzero values and TG < 400, holding
round(TC - HDL - TG/5, 0).  The 'Corrected Calcium' key is absent
whenever Albumin ≥ 4.0, and present when Calcium and Albumin are present
with nonzero values and Albumin < 4.0, holding
round(Ca + 0.8 × (4.0 - Albumin), 1).  (The unamended claim fails
because the presence guards test truthiness: a value of 0 counts as
absent, and the stored value is the rounded formula.)  Absence is key
omission by construction. -/
theorem claim4_amended :
    (∀ (params : List (String × ParamData)) (a b t : ℚ),
      getVal params "Total_Cholesterol" = some (.num a) →
      getVal params "HDL" = some (.num b) →
      getVal params "Triglycerides" = some (.num t) →
      400 ≤ t →
      (LipidEngine.lipidCalcIndices params).toOption.map
        (fun l => l.lookup "Friedewald LDL") = some none) ∧
    (∀ (params : List (String × ParamData)) (a b t : ℚ),
      getVal params "Total_Cholesterol" = some (.num a) → a ≠ 0 →
      getVal params "HDL" = some (.num b) → b ≠ 0 →
      getVal params "Triglycerides" = some (.num t) → t ≠ 0 → t < 400 →
      (LipidEngine.lipidCalcIndices params).toOption.map
        (fun l => (l.lookup "Friedewald LDL").map IndexEntry.value) =
        some (some (.num (pyRound 0 (a - b - t / 5))))) ∧
    (∀ (params : List (String × ParamData)) (al : ℚ),
      (∀ n s, getVal params n ≠ some (.str s)) →
      getVal params "Albumin" = some (.num al) →
      4.0 ≤ al →
      (KftEngine.kftCalcIndices params).toOption.map
        (fun l => l.lookup "Corrected Calcium") = some none) ∧
    (∀ (params : List (String × ParamData)) (c al : ℚ),
      (∀ n s, getVal params n ≠ some (.str s)) →
      getVal params "Calcium" = some (.num c) → c ≠ 0 →
      getVal params "Albumin" = some (.num al) → al ≠ 0 → al < 4.0 →
      (KftEngine.kftCalcIndices params).toOption.map
        (fun l => (l.lookup "Corrected Calcium").map IndexEntry.value) =
        some (some (.num (pyRound 1 (c + 0.8 * (4.0 - al)))))) := by
  refine ⟨?_, ?_, ?_, ?_⟩
  · intro params a b t hta hhb htg h400
    unfold LipidEngine.lipidCalcIndices
    simp only []
    rw [hta, hhb, htg]
    obtain ⟨o1, e1, p1⟩ := idxTcHdl_ok (some (.num a)) (some (.num b)) [] (by simp) (by simp)
    rw [e1]
    simp only [bindE]
    obtain ⟨o2, e2, p2⟩ := idxNonHdl_ok (some (.num a)) (some (.num b)) o1 (by simp) (by simp)
    rw [e2]
    simp only [bindE]
    rw [idxFriedewald_ge400 _ _ t o2 (not_lt.mpr h400)]
    simp only [bindE]
    obtain ⟨o4, e4, p4⟩ := idxPancreatitis_ok (some (.num t)) o2 (by simp)
    rw [e4]
    simp only [Except.toOption, Option.map]
    rw [p4 _ (by decide), p2 _ (by decide), p1 _ (by decide)]
    rfl
  · intro params a b t hta ha hhb hb htg ht h4
    unfold LipidEngine.lipidCalcIndices
    simp only []
    rw [hta, hhb, htg]
    obtain ⟨o1, e1, p1⟩ := idxTcHdl_ok (some (.num a)) (some (.num b)) [] (by simp) (by simp)
    rw [e1]
    simp only [bindE]
    obtain ⟨o2, e2, p2⟩ := idxNonHdl_ok (some (.num a)) (some (.num b)) o1 (by simp) (by simp)
    rw [e2]
    simp only [bindE]
    obtain ⟨e, hev, e3⟩ := idxFriedewald_appends a b t o2 ha hb ht h4
    rw [e3]
    simp only [bindE]
    obtain ⟨o4, e4, p4⟩ := idxPancreatitis_ok (some (.num t))
      (o2 ++ [("Friedewald LDL", e)]) (by simp)
    rw [e4]
    simp only [Except.toOption, Option.map]
    have hF : o4.lookup "Friedewald LDL" = some e := by
      rw [p4 _ (by decide), lookup_append, p2 _ (by decide), p1 _ (by decide)]
      simp [List.lookup]
    rw [hF]
    simp [hev]
  · intro params al hstr hal h4
    unfold KftEngine.kftCalcIndices
    simp only []
    obtain ⟨o1, e1, p1⟩ := idxBunCr_ok (getVal params "BUN") (getVal params "Creatinine") []
      (hstr "BUN") (hstr "Creatinine")
    rw [e1]
    simp only [bindE]
    obtain ⟨o2, e2, p2⟩ := idxAnionGap_ok (getVal params "Sodium") (getVal params "Chloride")
      (getVal params "Bicarbonate") o1 (hstr "Sodium") (hstr "Chloride") (hstr "Bicarbonate")
    rw [e2]
    simp only [bindE]
    rw [hal, idxCorrectedCalcium_ge4 _ al o2 (not_lt.mpr h4)]
    simp only [bindE]
    obtain ⟨o4, e4, p4⟩ := idxCkdStage_ok (getVal params "eGFR") o2 (hstr "eGFR")
    rw [e4]
    simp only [Except.toOption, Option.map]
    rw [p4 _ (by decide), p2 _ (by decide), p1 _ (by decide)]
    rfl
  · intro params c al hstr hca hc hal ha h4
    unfold KftEngine.kftCalcIndices
    simp only []
    obtain ⟨o1, e1, p1⟩ := idxBunCr_ok (getVal params "BUN") (getVal params "Creatinine") []
      (hstr "BUN") (hstr "Creatinine")
    rw [e1]
    simp only [bindE]
    obtain ⟨o2, e2, p2⟩ := idxAnionGap_ok (getVal params "Sodium") (getVal params "Chloride")
      (getVal params "Bicarbonate") o1 (hstr "Sodium") (hstr "Chloride") (hstr "Bicarbonate")
    rw [e2]
    simp only [bindE]
    obtain ⟨e, hev, e3⟩ := idxCorrectedCalcium_appends c al o2 hc ha h4
    rw [hca, hal, e3]
    simp only [bindE]
    obtain ⟨o4, e4, p4⟩ := idxCkdStage_ok (getVal params "eGFR")
      (o2 ++ [("Corrected Calcium", e)]) (hstr "eGFR")
    rw [e4]
    simp only [Except.toOption, Option.map]
    have hC : o4.lookup "Corrected Calcium" = some e := by
      rw [p4 _ (by decide), lookup_append, p2 _ (by decide), p1 _ (by decide)]
      simp [List.lookup]
    rw [hC]
    simp [hev]

/-- Claim C4 witness: the amended statement applied to concrete maps:
with TG = 400 the Friedewald key is absent; with TC = 200, HDL = 50,
TG = 100 it is present with the rounded value of 200 - 50 - 100/5; with
Albumin = 5 the corrected-calcium key is absent; with Calcium = 9,
Albumin = 3 it is present with the rounded value of 9 + 0.8 × (4 - 3). -/
theorem claim4_amended_witness :
    (LipidEngine.lipidCalcIndices
      [("Total_Cholesterol", { value := some (.num 200), unit := none }),
       ("HDL", { value := some (.num 50), unit := none }),
       ("Triglycerides", { value := some (.num 400), unit := none })]).toOption.map
        (fun l => l.lookup "Friedewald LDL") = some none ∧
    (LipidEngine.lipidCalcIndices
      [("Total_Cholesterol", { value := some (.num 200), unit := none }),
       ("HDL", { value := some (.num 50), unit := none }),
       ("Triglycerides", { value := some (.num 100), unit := none })]).toOption.map
        (fun l => (l.lookup "Friedewald LDL").map IndexEntry.value) =
        some (some (.num (pyRound 0 (200 - 50 - 100 / 5)))) ∧
    (KftEngine.kftCalcIndices
      [("Calcium", { value := some (.num 9), unit := none }),
       ("Albumin", { value := some (.num 5), unit := none })]).toOption.map
        (fun l => l.lookup "Corrected Calcium") = some none ∧
    (KftEngine.kftCalcIndices
      [("Calcium", { value := some (.num 9), unit := none }),
       ("Albumin", { value := some (.num 3), unit := none })]).toOption.map
        (fun l => (l.lookup "Corrected Calcium").map IndexEntry.value) =
        some (some (.num (pyRound 1 (9 + 0.8 * (4.0 - 3))))) := by
  refine ⟨?_, ?_, ?_, ?_⟩
  · exact claim4_amended.1 _ 200 50 400 (by simp [getVal, List.lookup])
      (by simp [getVal, List.lookup]) (by simp [getVal, List.lookup]) (by norm_num)
  · exact claim4_amended.2.1 _ 200 50 100 (by simp [getVal, List.lookup]) (by norm_num)
      (by simp [getVal, List.lookup]) (by norm_num)
      (by simp [getVal, List.lookup]) (by norm_num) (by norm_num)
  · exact claim4_amended.2.2.1 _ 5
      (getVal_not_str (by simp))
      (by simp [getVal, List.lookup]) (by norm_num)
  · exact claim4_amended.2.2.2 _ 9 3
      (getVal_not_str (by simp))
      (by simp [getVal, List.lookup]) (by norm_num)
      (by simp [getVal, List.lookup]) (by norm_num) (by norm_num)

/-- Claim C8 counterexample: no static list of 'normal' terms can make
rheumatology `_classify_qual` a match-against-normal-terms classifier.
The code classifies 'e' as normal, so any such list would need a term
occurring in 'e' — that is, the empty string or 'e' itself — but both
occur in 'positive', which the code classifies as abnormal (it matches
positive terms and defaults to normal, the inverse of the claimed
rule). -/
theorem claim8_counterexample :
    ¬ ∃ normals : List String, ∀ v : String,
      (RheumEngine.classify_qual (.str v)).status = specQualitativeStatus normals v := by
  rintro ⟨normals, h⟩
  have he := h "e"
  have hp := h "positive"
  rw [show (RheumEngine.classify_qual (.str "e")).status = "normal" from by decide] at he
  rw [show (RheumEngine.classify_qual (.str "positive")).status = "abnormal" from by decide] at hp
  unfold specQualitativeStatus at he hp
  cases hany : normals.any (fun n => pyIn (pyLower n) (pyStrip (pyLower "e")))
  · rw [hany] at he
    simp at he
  · obtain ⟨n, hn, hinfix⟩ := List.any_eq_true.mp hany
    have h1 : (pyLower n).toList <:+: (pyStrip (pyLower "e")).toList :=
      of_decide_eq_true hinfix
    rw [show ((pyStrip (pyLower "e")).toList) = ['e'] from by decide] at h1
    have h2 : pyIn (pyLower n) (pyStrip (pyLower "positive")) = true := by
      unfold pyIn
      rw [show ((pyStrip (pyLower "positive")).toList) =
        ['p','o','s','i','t','i','v','e'] from by decide]
      rcases infix_of_singleton h1 with h0 | h0 <;> rw [h0] <;> decide
    have hany2 : normals.any
        (fun n => pyIn (pyLower n) (pyStrip (pyLower "positive"))) = true :=
      List.any_eq_true.mpr ⟨n, hn, h2⟩
    rw [hany2] at hp
    simp at hp

/-- Claim C8 (amended): the urine qualitative classifier does follow the
claimed rule — a string value is normal exactly when some term of the
parameter's static normal list occurs, case-insensitively, in the
(stripped) value, and abnormal otherwise.  The rheumatology qualitative
classifier instead matches a static list of positive terms: a value is
abnormal exactly when some positive term occurs in it, and normal
otherwise (so unmatched strings default to normal, not abnormal). -/
theorem claim8_amended :
    (∀ (p : String) (s : String),
      (UrineEngine.classify_qualitative p (.str s)).status =
        specQualitativeStatus ((UrineEngine.URINE_QUALITATIVE_NORMALS.lookup p).getD []) s) ∧
    (∀ v : String,
      (RheumEngine.classify_qual (.str v)).status = "abnormal" ↔
        ∃ t ∈ RheumEngine.POSITIVE_TERMS, pyIn t (pyStrip (pyLower v)) = true) := by
  constructor
  · intro p s
    unfold UrineEngine.classify_qualitative specQualitativeStatus
    simp only []
    cases hany : ((UrineEngine.URINE_QUALITATIVE_NORMALS.lookup p).getD []).any
        (fun n => pyIn (pyLower n) (pyStrip (pyLower s))) <;> simp
  · intro v
    unfold RheumEngine.classify_qual
    simp only [pyValRepr]
    cases hany : RheumEngine.POSITIVE_TERMS.any (fun t => pyIn t (pyStrip (pyLower v)))
    · refine iff_of_false (by simp) ?_
      intro hex
      exact absurd (List.any_eq_true.mpr hex) (by simp [hany])
    · exact iff_of_true (by simp) (List.any_eq_true.mp hany)

/-- Claim C8 witness: the amended statement at concrete values — the
urine value 'Pale Yellow' for Urine_Color agrees with the spec-modelled
classifier, and the rheumatology value 'positive' is abnormal because it
contains the positive term 'positive'. -/
theorem claim8_amended_witness :
    (UrineEngine.classify_qualitative "Urine_Color" (.str "Pale Yellow")).status =
      specQualitativeStatus
        ((UrineEngine.URINE_QUALITATIVE_NORMALS.lookup "Urine_Color").getD []) "Pale Yellow" ∧
    (RheumEngine.classify_qual (.str "positive")).status = "abnormal" :=
  ⟨claim8_amended.1 "Urine_Color" "Pale Yellow",
   (claim8_amended.2 "positive").mpr ⟨"positive", by decide, by decide⟩⟩

/-- A step of the parameter loop only appends critical entries whose
status passes the source's own `'critical' in status` check. -/
lemma analyzeStep_crit {sex : String} {acc acc' : AnalysisEngine.AnalyzeAcc}
    {e : String × ParamData}
    (h : AnalysisEngine.analyzeStep sex acc e = .ok acc') :
    ∀ c ∈ acc'.critical_values, c ∈ acc.critical_values ∨ pyIn "critical" c.status = true := by
  intro c hc
  unfold AnalysisEngine.analyzeStep at h
  cases hv : e.2.value with
  | none =>
    rw [hv] at h
    injection h with h2
    subst h2
    exact Or.inl hc
  | some v =>
    rw [hv] at h
    simp only [] at h
    cases hcl : AnalysisEngine.classify_value e.1 v sex with
    | error err => rw [hcl] at h; simp [bindE] at h
    | ok cl =>
      rw [hcl] at h
      simp only [bindE] at h
      injection h with h2
      subst h2
      simp only [] at hc
      by_cases hcond : (cl.status ∉ (["normal", "unknown"] : List String)) ∧
          pyIn "critical" cl.status = true
      · rw [if_pos hcond] at hc
        rcases List.mem_append.mp hc with hin | hin
        · exact Or.inl hin
        · rcases List.mem_singleton.mp hin with rfl
          exact Or.inr hcond.2
      · rw [if_neg hcond] at hc
        exact Or.inl hc

/-- Along the whole fold, every critical entry passes the
`'critical' in status` check. -/
lemma foldl_crit {sex : String} :
    ∀ (l : List (String × ParamData)) (acc acc' : AnalysisEngine.AnalyzeAcc),
      l.foldlM (AnalysisEngine.analyzeStep sex) acc = .ok acc' →
      (∀ c ∈ acc.critical_values, pyIn "critical" c.status = true) →
      ∀ c ∈ acc'.critical_values, pyIn "critical" c.status = true := by
  intro l
  induction l with
  | nil =>
    intro acc acc' h hi
    rw [List.foldlM_nil] at h
    injection h with h2
    subst h2
    exact hi
  | cons x xs ih =>
    intro acc acc' h hi
    rw [List.foldlM_cons] at h
    cases hs : AnalysisEngine.analyzeStep sex acc x with
    | error e => rw [hs] at h; simp [Bind.bind, Except.bind] at h
    | ok acc1 =>
      rw [hs] at h
      simp only [Bind.bind, Except.bind] at h
      exact ih acc1 acc' h
        (fun c hc => (analyzeStep_crit hs c hc).elim (hi c) id)

/-- A step of the parameter loop adds exactly one `results` entry when
its value is present and none otherwise, provided its name is not yet a
key; other keys are untouched. -/
lemma analyzeStep_len {sex : String} {acc acc' : AnalysisEngine.AnalyzeAcc}
    {e : String × ParamData}
    (h : AnalysisEngine.analyzeStep sex acc e = .ok acc')
    (hnew : acc.results.lookup e.1 = none) :
    acc'.results.length = acc.results.length + (if e.2.value = none then 0 else 1) ∧
    ∀ k, k ≠ e.1 → acc'.results.lookup k = acc.results.lookup k := by
  unfold AnalysisEngine.analyzeStep at h
  cases hv : e.2.value with
  | none =>
    rw [hv] at h
    injection h with h2
    subst h2
    exact ⟨by simp, fun k _ => rfl⟩
  | some v =>
    rw [hv] at h
    simp only [] at h
    cases hcl : AnalysisEngine.classify_value e.1 v sex with
    | error err => rw [hcl] at h; simp [bindE] at h
    | ok cl =>
      rw [hcl] at h
      simp only [bindE] at h
      injection h with h2
      subst h2
      simp only []
      constructor
      · unfold dictInsert
        rw [if_neg (by simp [hnew])]
        simp
      · intro k hk
        unfold dictInsert
        rw [if_neg (by simp [hnew])]
        rw [lookup_append]
        simp [List.lookup, beq_eq_false_iff_ne.mpr hk]

/-- Along the whole fold over a map with distinct keys, the `results`
dict gains exactly one entry per input parameter whose value is present
(not None). -/
lemma foldl_len {sex : String} :
    ∀ (l : List (String × ParamData)) (acc acc' : AnalysisEngine.AnalyzeAcc),
      (l.map Prod.fst).Nodup →
      (∀ p ∈ l, acc.results.lookup p.1 = none) →
      l.foldlM (AnalysisEngine.analyzeStep sex) acc = .ok acc' →
      acc'.results.length =
        acc.results.length + (l.filter (fun p => p.2.value ≠ none)).length := by
  intro l
  induction l with
  | nil =>
    intro acc acc' _ _ h
    rw [List.foldlM_nil] at h
    injection h with h2
    subst h2
    simp
  | cons x xs ih =>
    intro acc acc' hnd hnew h
    rw [List.foldlM_cons] at h
    cases hs : AnalysisEngine.analyzeStep sex acc x with
    | error e => rw [hs] at h; simp [Bind.bind, Except.bind] at h
    | ok acc1 =>
      rw [hs] at h
      simp only [Bind.bind, Except.bind] at h
      obtain ⟨hlen1, hpres⟩ := analyzeStep_len hs (hnew x (List.mem_cons_self x xs))
      have hnd' : (xs.map Prod.fst).Nodup := (List.nodup_cons.mp hnd).2
      have hx : x.1 ∉ xs.map Prod.fst := (List.nodup_cons.mp hnd).1
      have hnew' : ∀ p ∈ xs, acc1.results.lookup p.1 = none := by
        intro p hp
        rw [hpres p.1 (by
          intro hpe
          exact hx (hpe ▸ List.mem_map_of_mem Prod.fst hp))]
        exact hnew p (List.mem_cons_of_mem x hp)
      have := ih acc1 acc' hnd' hnew' h
      rw [this, hlen1]
      by_cases hval : x.2.value = none
      · rw [if_pos hval]
        rw [List.filter_cons_of_neg (by simp [hval])]
        omega
      · rw [if_neg hval]
        rw [List.filter_cons_of_pos (by simp [hval])]
        simp only [List.length_cons]
        omega

/-- Claim C6: whenever `analyze_all_parameters` returns a result on a
map with distinct keys, the aggregate counts are consistent:
abnormal_count equals the length of the abnormalities list,
critical_count equals the length of the critical_values list,
total_parameters equals the number of input entries with a present
(non-None) value, and every critical_values entry has a status
containing 'critical'. -/
theorem claim6_counts :
    ∀ (params : List (String × ParamData)) (sex : String)
      (r : AnalysisEngine.PanelResult),
      (params.map Prod.fst).Nodup →
      AnalysisEngine.analyze_all_parameters params sex = .ok r →
      r.abnormal_count = r.abnormalities.length ∧
      r.critical_count = r.critical_values.length ∧
      r.total_parameters = (params.filter (fun p => p.2.value ≠ none)).length ∧
      ∀ c ∈ r.critical_values, pyIn "critical" c.status = true := by
  intro params sex r hnd h
  unfold AnalysisEngine.analyze_all_parameters at h
  cases hacc : params.foldlM (AnalysisEngine.analyzeStep sex) {} with
  | error e => rw [hacc] at h; simp [bindE] at h
  | ok acc =>
    rw [hacc] at h
    simp only [bindE] at h
    cases hq : AnalysisEngine.check_sample_quality params with
    | error e => rw [hq] at h; simp at h
    | ok qc =>
      rw [hq] at h
      simp only [] at h
      cases hci : AnalysisEngine.calculate_additional_indices params with
      | error e => rw [hci] at h; simp at h
      | ok ci =>
        rw [hci] at h
        simp only [] at h
        injection h with h2
        subst h2
        refine ⟨rfl, rfl, ?_, ?_⟩
        · have := foldl_len params {} acc hnd (fun p _ => rfl) hacc
          simpa using this
        · exact foldl_crit params {} acc hacc (by simp [AnalysisEngine.AnalyzeAcc])

/-- Claim C6 witness: the counts of the result of analysing the empty
map are consistent. -/
theorem claim6_witness :
    ((([] : List (String × ParamData)).map Prod.fst).Nodup) ∧
    (({ quality_checks := [AnalysisEngine.overallQualityPass] } :
        AnalysisEngine.PanelResult).abnormal_count =
      ({ quality_checks := [AnalysisEngine.overallQualityPass] } :
        AnalysisEngine.PanelResult).abnormalities.length ∧
     ({ quality_checks := [AnalysisEngine.overallQualityPass] } :
        AnalysisEngine.PanelResult).critical_count =
      ({ quality_checks := [AnalysisEngine.overallQualityPass] } :
        AnalysisEngine.PanelResult).critical_values.length ∧
     ({ quality_checks := [AnalysisEngine.overallQualityPass] } :
        AnalysisEngine.PanelResult).total_parameters =
      (([] : List (String × ParamData)).filter (fun p => p.2.value ≠ none)).length ∧
     ∀ c ∈ ({ quality_checks := [AnalysisEngine.overallQualityPass] } :
        AnalysisEngine.PanelResult).critical_values, pyIn "critical" c.status = true) :=
  ⟨by simp, claim6_counts [] "Default" _ (by simp) rfl⟩
